import Mathlib

/-!
# Movie recommendation UI: interaction logic

A shallow embedding of the client logic of the movie recommendation UI:

* `services/api.js`: the HTTP helper functions,
* `components/AutocompleteSearch.jsx`: the debounced suggestion fetcher,
* `pages/Search.jsx`: the paginated result browser.

React state is a record, every handler is a function on that record, and the
event loop (timers, outstanding promises, URL changes) is an explicit world
state driven by a list of events.  An `async` function is split at its single
`await` into the part that runs up to the `await` and the part that runs once
the awaited promise has settled.
-/

namespace MovieUI

/-! ## JavaScript values -/

/-- A JavaScript string, as its sequence of UTF-16 code units; `.length` is the
length of the list. -/
abbrev JSString := List Nat

/-- UTF-16 code units of one Unicode scalar value. -/
def utf16 (c : Char) : List Nat :=
  if c.toNat < 0x10000 then [c.toNat]
  else [0xD800 + (c.toNat - 0x10000) / 0x400, 0xDC00 + (c.toNat - 0x10000) % 0x400]

/-- UTF-16 code units of a list of scalar values. -/
def utf16s : List Char → JSString
  | [] => []
  | c :: cs => utf16 c ++ utf16s cs

/-- The JavaScript string written as the literal `s`. -/
def js (s : String) : JSString := utf16s s.toList

/-- A thrown JavaScript error: constructor name and message. -/
structure JsError where
  name : JSString
  message : JSString
  deriving DecidableEq, Repr

/-- A settled promise: fulfilled with a value or rejected with an error. -/
abbrev Settled (α : Type) := Except JsError α

/-- Template-literal conversion of an integer number to a string: plain decimal
digits.  This is what JavaScript prints for safe integers, those of absolute
value below 2^53; above, JavaScript prints the shortest digits that read back
as the same double, and exponent form from 10^21 on. -/
def numToString (n : Int) : JSString :=
  match n with
  | Int.ofNat k => utf16s (Nat.toDigits 10 k)
  | Int.negSucc k => 45 :: utf16s (Nat.toDigits 10 (k + 1))

/-- A movie record as consumed by the suggestion list. -/
structure MovieItem where
  id : Nat
  title : JSString
  year : Option Nat
  poster_url : Option JSString
  deriving DecidableEq, Repr

/-- A JSON object returned by the list endpoints; an absent key is `none`. -/
structure Payload where
  results : Option (List MovieItem)
  total_pages : Option Int
  deriving DecidableEq, Repr

/-- A parsed JSON body of a list endpoint: `none` is JSON `null`. -/
abbrev Body := Option Payload

/-- What `fetch` resolves to: the `ok` flag and what `response.json()` settles to. -/
structure Response (β : Type) where
  ok : Bool
  json : Settled β

/-! ## The standard `encodeURIComponent` -/

/-- Code units left untouched by `encodeURIComponent`: ASCII letters, digits
and the marks `- _ . ! ~ * ' ( )`. -/
def isUnreserved (u : Nat) : Bool :=
  (65 ≤ u && u ≤ 90) || (97 ≤ u && u ≤ 122) || (48 ≤ u && u ≤ 57) ||
    u == 45 || u == 95 || u == 46 || u == 33 || u == 126 || u == 42 || u == 39 ||
    u == 40 || u == 41

/-- Upper-case hexadecimal digit, as a code unit. -/
def hexDigit (n : Nat) : Nat := if n < 10 then 48 + n else 55 + n

/-- Percent-escape of one octet. -/
def pctByte (b : Nat) : List Nat := [37, hexDigit (b / 16), hexDigit (b % 16)]

/-- UTF-8 octets of a code point. -/
def utf8 (cp : Nat) : List Nat :=
  if cp < 0x80 then [cp]
  else if cp < 0x800 then [0xC0 + cp / 64, 0x80 + cp % 64]
  else if cp < 0x10000 then [0xE0 + cp / 4096, 0x80 + cp / 64 % 64, 0x80 + cp % 64]
  else [0xF0 + cp / 262144, 0x80 + cp / 4096 % 64, 0x80 + cp / 64 % 64, 0x80 + cp % 64]

/-- Percent-escape of a code point. -/
def pctCodePoint (cp : Nat) : List Nat :=
  match utf8 cp with
  | [a] => pctByte a
  | [a, b] => pctByte a ++ pctByte b
  | [a, b, c] => pctByte a ++ pctByte b ++ pctByte c
  | [a, b, c, d] => pctByte a ++ pctByte b ++ pctByte c ++ pctByte d
  | _ => []

/-- The thrown `URIError` of a malformed string. -/
def uriError : JsError := ⟨js "URIError", js "URI malformed"⟩

/-- The ECMAScript `encodeURIComponent`: unreserved code units are kept, every
other code point is written as the percent-escapes of its UTF-8 octets, and an
unpaired surrogate throws. -/
def stdEncodeURIComponent : JSString → Settled JSString
  | [] => .ok []
  | [u] =>
    if isUnreserved u then .ok [u]
    else if 0xD800 ≤ u ∧ u ≤ 0xDFFF then .error uriError
    else .ok (pctCodePoint u)
  | u :: v :: rest =>
    if isUnreserved u then
      match stdEncodeURIComponent (v :: rest) with
      | .ok t => .ok (u :: t)
      | .error e => .error e
    else if 0xDC00 ≤ u ∧ u ≤ 0xDFFF then .error uriError
    else if 0xD800 ≤ u ∧ u ≤ 0xDBFF then
      if 0xDC00 ≤ v ∧ v ≤ 0xDFFF then
        match stdEncodeURIComponent rest with
        | .ok t => .ok (pctCodePoint ((u - 0xD800) * 0x400 + (v - 0xDC00) + 0x10000) ++ t)
        | .error e => .error e
      else .error uriError
    else
      match stdEncodeURIComponent (v :: rest) with
      | .ok t => .ok (pctCodePoint u ++ t)
      | .error e => .error e

/-! ## `services/api.js` -/

/-- What the API layer reads from its surroundings: the base URL taken from
the process environment at module load, and the `encodeURIComponent` builtin. -/
structure Env where
  API_BASE_URL : JSString
  encodeURIComponent : JSString → Settled JSString

/-- The default surroundings: `REACT_APP_API_BASE` unset and the standard builtin. -/
def stdEnv : Env :=
  ⟨js "http://localhost:5002/api", stdEncodeURIComponent⟩

/-- An API function run up to its `await fetch(...)`.  Either the promise is
already settled without any HTTP request (`settled`), or `fetch url` has been
issued (`fetch`) and a response that is not ok will throw
`new Error(failMessage)`. -/
inductive ApiCall (β : Type) where
  | settled (r : Settled β)
  | fetch (url : JSString) (failMessage : JSString)

/-- The rest of an API function once `fetch` has settled:
`if (!response.ok) throw new Error(msg); return response.json();`. -/
def ApiCall.complete {β : Type} : ApiCall β → Settled (Response β) → Settled β
  | .settled r, _ => r
  | .fetch _ _, .error e => .error e
  | .fetch _ msg, .ok response =>
    if !response.ok then .error ⟨js "Error", msg⟩ else response.json

/-- Function `getAutocompleteSuggestions` of `api.js` (lines 11-17); a missing
argument is `none`. -/
def getAutocompleteSuggestions (env : Env) (query : Option JSString) : ApiCall Body :=
  match query with
  | none => .settled (.ok (some ⟨some [], none⟩))
  | some q =>
    if q = [] ∨ q.length < 2 then .settled (.ok (some ⟨some [], none⟩))
    else
      match env.encodeURIComponent q with
      | .error e => .settled (.error e)
      | .ok encoded =>
        .fetch (env.API_BASE_URL ++ js "/autocomplete?query=" ++ encoded)
          (js "Failed to get suggestions")

/-! ## `components/AutocompleteSearch.jsx` -/

/-- The four `useState` cells of `AutocompleteSearch` (lines 7-10). -/
structure ACState where
  query : JSString
  suggestions : List MovieItem
  isLoading : Bool
  showSuggestions : Bool
  deriving DecidableEq, Repr

/-- Function `fetchSuggestions` (lines 15-23) up to its `await`, for the `query`
captured by the effect closure.  The second component is the awaited call, or
`none` when the function returned before calling the API. -/
def fetchSuggestions (env : Env) (query : JSString) (s : ACState) :
    ACState × Option (ApiCall Body) :=
  if query.length < 2 then
    ({ s with suggestions := [] }, none)
  else
    ({ s with isLoading := true }, some (getAutocompleteSuggestions env (some query)))

/-- Function `fetchSuggestions` (lines 23-29) from the moment the awaited call
settles: the `try` body, the `catch` that only logs, and the `finally`.  The
second component is how the promise of `fetchSuggestions` itself settles. -/
def fetchSuggestions.resume (outcome : Settled Body) (s : ACState) :
    ACState × Settled Unit :=
  match outcome with
  | .ok (some data) =>
    ({ s with suggestions := data.results.getD [], isLoading := false }, .ok ())
  | .ok none => ({ s with isLoading := false }, .ok ())
  | .error _ => ({ s with isLoading := false }, .ok ())

/-- The `onChange` handler of the input (lines 70-73). -/
def onChange (value : JSString) (s : ACState) : ACState :=
  { s with query := value, showSuggestions := true }

/-- The `onFocus` handler of the input (line 74). -/
def onFocus (s : ACState) : ACState :=
  { s with showSuggestions := true }

/-- Function `handleClickOutside` (lines 37-41): `current` is `searchRef.current`
given by its `contains` test, `target` is `event.target`. -/
def handleClickOutside (current : Option (Nat → Bool)) (target : Nat) (s : ACState) :
    ACState :=
  match current with
  | some contains => if !contains target then { s with showSuggestions := false } else s
  | none => s

/-- White space and line terminators stripped by `String.prototype.trim`. -/
def isWhiteSpace (u : Nat) : Bool :=
  u == 9 || u == 10 || u == 11 || u == 12 || u == 13 || u == 32 || u == 0xA0 ||
    u == 0x1680 || (0x2000 ≤ u && u ≤ 0x200A) || u == 0x2028 || u == 0x2029 ||
    u == 0x202F || u == 0x205F || u == 0x3000 || u == 0xFEFF

/-- The string `query.trim()`. -/
def trim (q : JSString) : JSString :=
  ((q.dropWhile isWhiteSpace).reverse.dropWhile isWhiteSpace).reverse

/-- Function `handleSearch` (lines 47-53): the new state and the route passed to
`navigate`, if any; `.error` when `encodeURIComponent` throws out of the
handler, which then has set nothing. -/
def handleSearch (env : Env) (s : ACState) : Except JsError (ACState × Option JSString) :=
  if trim s.query ≠ [] then
    match env.encodeURIComponent s.query with
    | .error e => .error e
    | .ok encoded => .ok ({ s with showSuggestions := false }, some (js "/search?q=" ++ encoded))
  else .ok (s, none)

/-- Function `handleSuggestionClick` (lines 55-59): the new state and the route
passed to `navigate`. -/
def handleSuggestionClick (movieId : Nat) (s : ACState) : ACState × JSString :=
  ({ s with showSuggestions := false, query := [] },
    js "/movie/" ++ numToString (Int.ofNat movieId))

/-- An outstanding call of `getAutocompleteSuggestions`, awaited by one run of
`fetchSuggestions`. -/
structure Pending where
  id : Nat
  query : JSString
  call : ApiCall Body

/-- The component together with the event loop around it. -/
structure World where
  ui : ACState
  searchRef : Option (Nat → Bool)
  now : Nat
  debounceTimeout : Option (Nat × JSString)
  inflight : List Pending
  nextId : Nat
  fired : List JSString
  requests : List JSString
  navigated : List JSString

/-- What can happen to the component. -/
inductive Event where
  | change (value : JSString)
  | focus
  | elapse (ms : Nat)
  | settle (id : Nat) (response : Settled (Response Body))
  | mousedown (target : Nat)
  | submit
  | clickSuggestion (movieId : Nat)

/-- The effect of lines 14-34 after a render: when `query` differs from the one
of the previous render, the cleanup clears the pending timeout and a new one is
set 300ms ahead, its closure holding the new `query`. -/
def rerunDebounce (previous : JSString) (w : World) : World :=
  if w.ui.query = previous then w
  else { w with debounceTimeout := some (w.now + 300, w.ui.query) }

/-- The timer callback: one run of `fetchSuggestions` up to its `await`. -/
def fireTimeout (env : Env) (query : JSString) (w : World) : World :=
  match fetchSuggestions env query w.ui with
  | (ui, none) =>
    { w with ui := ui, debounceTimeout := none, fired := w.fired ++ [query] }
  | (ui, some call) =>
    { w with
      ui := ui
      debounceTimeout := none
      fired := w.fired ++ [query]
      inflight := w.inflight ++ [⟨w.nextId, query, call⟩]
      nextId := w.nextId + 1
      requests :=
        match call with
        | .fetch url _ => w.requests ++ [url]
        | .settled _ => w.requests }

/-- One event of the loop. -/
def step (env : Env) (e : Event) (w : World) : World :=
  match e with
  | .change value =>
    rerunDebounce w.ui.query { w with ui := onChange value w.ui }
  | .focus => { w with ui := onFocus w.ui }
  | .elapse ms =>
    match w.debounceTimeout with
    | some (deadline, query) =>
      if deadline ≤ w.now + ms then
        { fireTimeout env query w with now := w.now + ms }
      else { w with now := w.now + ms }
    | none => { w with now := w.now + ms }
  | .settle id response =>
    match w.inflight.find? (fun p => p.id == id) with
    | some p =>
      { w with
        ui := (fetchSuggestions.resume (p.call.complete response) w.ui).1
        inflight := w.inflight.filter (fun p => p.id != id) }
    | none => w
  | .mousedown target => { w with ui := handleClickOutside w.searchRef target w.ui }
  | .submit =>
    match handleSearch env w.ui with
    | .ok (ui, some route) => { w with ui := ui, navigated := w.navigated ++ [route] }
    | .ok (ui, none) => { w with ui := ui }
    | .error _ => w
  | .clickSuggestion movieId =>
    rerunDebounce w.ui.query
      { w with
        ui := (handleSuggestionClick movieId w.ui).1
        navigated := w.navigated ++ [(handleSuggestionClick movieId w.ui).2] }

/-- Runs a list of events, oldest first. -/
def run (env : Env) : List Event → World → World
  | [], w => w
  | e :: es, w => run env es (step env e w)

/-- The world right after mount: initial `useState` values, the ref attached to
the container, and the first run of the debounce effect already scheduled. -/
def World.init (container : Nat → Bool) : World :=
  { ui := ⟨[], [], false, false⟩
    searchRef := some container
    now := 0
    debounceTimeout := some (300, [])
    inflight := []
    nextId := 0
    fired := []
    requests := []
    navigated := [] }

/-- States reachable from mount. -/
inductive Reachable (env : Env) : World → Prop where
  | init (container : Nat → Bool) : Reachable env (World.init container)
  | step (e : Event) {w : World} : Reachable env w → Reachable env (step env e w)

/-! ## `services/api.js`, continued -/

/-- Function `searchMovies` of `api.js` (lines 5-9).  It has two parameters; a
missing `page` is `none` and defaults to 1. -/
def searchMovies (env : Env) (query : JSString) (page : Option Int) : ApiCall Body :=
  match env.encodeURIComponent query with
  | .error e => .settled (.error e)
  | .ok encoded =>
    .fetch
      (env.API_BASE_URL ++ js "/search?query=" ++ encoded ++ js "&page=" ++
        numToString (page.getD 1))
      (js "Failed to search movies")

/-- Function `getTrendingMovies` of `api.js` (lines 38-42); a missing
`timeWindow` is `none` and defaults to `'week'`. -/
def getTrendingMovies (env : Env) (timeWindow : Option JSString) : ApiCall Body :=
  .fetch (env.API_BASE_URL ++ js "/trending?time_window=" ++ timeWindow.getD (js "week"))
    (js "Failed to get trending movies")

/-! ## `pages/Search.jsx` -/

namespace Search

/-- What the router hands to the page: the path and the `q` and `type` search
parameters (`none` when `searchParams.get` returns `null`). -/
structure Location where
  pathname : JSString
  q : Option JSString
  type : Option JSString
  deriving DecidableEq, Repr

/-- Line 10: `searchParams.get('q') || ''`. -/
def Location.query (l : Location) : JSString := l.q.getD []

/-- Line 11: `searchParams.get('type') || 'movie'`. -/
def Location.searchType (l : Location) : JSString :=
  match l.type with
  | some t => if t = [] then js "movie" else t
  | none => js "movie"

/-- Line 12: `location.pathname === '/trending'`. -/
def Location.isTrendingPage (l : Location) : Bool := l.pathname == js "/trending"

/-- The five `useState` cells of `Search` (lines 14-18). -/
structure State where
  movies : List MovieItem
  isLoading : Bool
  error : Option JSString
  page : Int
  totalPages : Int
  deriving DecidableEq, Repr

/-- The initial `useState` values. -/
def State.initial : State := ⟨[], false, none, 1, 0⟩

/-- A call made by `fetchMovies`, with the arguments as written at the call site. -/
inductive Invocation where
  | searchMovies (query : JSString) (page : Int) (searchType : JSString)
  | getTrendingMovies
  deriving DecidableEq, Repr

/-- Function `fetchMovies` (lines 21-35) up to its `await`, for the values
captured by the effect closure.  The second component is the awaited call, or
`none` on the early return of the empty query. -/
def fetchMovies (env : Env) (isTrendingPage : Bool) (query : JSString) (page : Int)
    (searchType : JSString) (s : State) : State × Option (Invocation × ApiCall Body) :=
  let s₁ : State := { s with isLoading := true, error := none }
  if isTrendingPage then
    (s₁, some (.getTrendingMovies, getTrendingMovies env none))
  else if query ≠ [] then
    (s₁, some (.searchMovies query page searchType, searchMovies env query (some page)))
  else
    ({ s₁ with movies := [], isLoading := false }, none)

/-- Function `fetchMovies` (lines 37-44) from the moment the awaited call
settles. -/
def fetchMovies.resume (isTrendingPage : Bool) (outcome : Settled Body) (s : State) : State :=
  match outcome with
  | .ok (some data) =>
    { s with
      movies := data.results.getD []
      totalPages := data.total_pages.getD 0
      isLoading := false }
  | _ =>
    { s with
      error :=
        some (if isTrendingPage then js "Failed to load trending movies"
          else js "Failed to search movies")
      isLoading := false }

/-- Function `handleNextPage` (lines 50-55): the new state and whether
`window.scrollTo(0, 0)` ran. -/
def handleNextPage (s : State) : State × Bool :=
  if s.page < s.totalPages then ({ s with page := s.page + 1 }, true) else (s, false)

/-- Function `handlePrevPage` (lines 57-62): the new state and whether
`window.scrollTo(0, 0)` ran. -/
def handlePrevPage (s : State) : State × Bool :=
  if s.page > 1 then ({ s with page := s.page - 1 }, true) else (s, false)

/-- An outstanding API call awaited by one run of `fetchMovies`. -/
structure Pending where
  id : Nat
  isTrendingPage : Bool
  call : ApiCall Body

/-- The page together with the router and the event loop. -/
structure World where
  ui : State
  location : Location
  inflight : List Pending
  nextId : Nat
  issued : List Invocation

/-- What can happen to the page. -/
inductive Event where
  | navigate (location : Location)
  | next
  | prev
  | settle (id : Nat) (response : Settled (Response Body))

/-- The dependency array of the effect (line 48). -/
def World.deps (w : World) : JSString × Int × Bool × JSString :=
  (w.location.query, w.ui.page, w.location.isTrendingPage, w.location.searchType)

/-- One run of the effect body: `fetchMovies()` up to its `await`. -/
def runEffect (env : Env) (w : World) : World :=
  match fetchMovies env w.location.isTrendingPage w.location.query w.ui.page
      w.location.searchType w.ui with
  | (ui, none) => { w with ui := ui }
  | (ui, some (inv, call)) =>
    { w with
      ui := ui
      inflight := w.inflight ++ [⟨w.nextId, w.location.isTrendingPage, call⟩]
      nextId := w.nextId + 1
      issued := w.issued ++ [inv] }

/-- The effect of lines 20-48 after a render: it runs again when one of its
dependencies differs from the previous render. -/
def rerunEffect (env : Env) (previous : JSString × Int × Bool × JSString) (w : World) :
    World :=
  if w.deps = previous then w else runEffect env w

/-- One event of the loop. -/
def step (env : Env) (e : Event) (w : World) : World :=
  match e with
  | .navigate location => rerunEffect env w.deps { w with location := location }
  | .next => rerunEffect env w.deps { w with ui := (handleNextPage w.ui).1 }
  | .prev => rerunEffect env w.deps { w with ui := (handlePrevPage w.ui).1 }
  | .settle id response =>
    match w.inflight.find? (fun p => p.id == id) with
    | some p =>
      { w with
        ui := fetchMovies.resume p.isTrendingPage (p.call.complete response) w.ui
        inflight := w.inflight.filter (fun p => p.id != id) }
    | none => w

/-- Runs a list of events, oldest first. -/
def run (env : Env) : List Event → World → World
  | [], w => w
  | e :: es, w => run env es (step env e w)

/-- The world right after mount at `location`: initial `useState` values and
the first run of the effect. -/
def World.init (env : Env) (location : Location) : World :=
  runEffect env
    { ui := State.initial, location := location, inflight := [], nextId := 0, issued := [] }

/-- States reachable from mount. -/
inductive Reachable (env : Env) : World → Prop where
  | init (location : Location) : Reachable env (World.init env location)
  | step (e : Event) {w : World} : Reachable env w → Reachable env (step env e w)

end Search

/-! ## Bursts of typing -/

/-- Events that do not set the query. -/
def Event.isPassive : Event → Bool
  | .change _ => false
  | .clickSuggestion _ => false
  | _ => true

/-- Time that passes during a list of events, in milliseconds. -/
def elapsed : List Event → Nat
  | [] => 0
  | .elapse ms :: es => ms + elapsed es
  | _ :: es => elapsed es

/-- The events of the query updates that follow a first one: before each update
to `v` come the events `between`. -/
def typing : List (List Event × JSString) → List Event
  | [] => []
  | (between, v) :: rest => between ++ (Event.change v :: typing rest)

/-- The last value of a sequence of query updates starting with `v`. -/
def finalValue (v : JSString) : List (List Event × JSString) → JSString
  | [] => v
  | (_, v₂) :: rest => finalValue v₂ rest

/-! ## `services/api.js`, the remaining functions -/

/-- A movie detail record, as far as the page logic reads it. -/
structure MovieDetail where
  id : Option Nat
  title : Option JSString
  deriving DecidableEq, Repr

/-- Function `getMovieDetails` of `api.js` (lines 19-23); `movieId` is the text
interpolated into the URL. -/
def getMovieDetails (env : Env) (movieId : JSString) : ApiCall (Option MovieDetail) :=
  .fetch (env.API_BASE_URL ++ js "/movie/" ++ movieId) (js "Failed to fetch movie details")

/-- Function `getRecommendations` of `api.js` (lines 25-29); a missing `limit`
is `none` and defaults to 10. -/
def getRecommendations (env : Env) (movieId : JSString) (limit : Option Int) :
    ApiCall Body :=
  .fetch
    (env.API_BASE_URL ++ js "/recommendations/movie/" ++ movieId ++ js "?limit=" ++
      numToString (limit.getD 10))
    (js "Failed to get recommendations")

/-- The `movieIds` argument of `getHybridRecommendations`: an array, given by
the text of each element, or a value that is not an array, given by its text. -/
inductive MovieIds where
  | array (ids : List JSString)
  | text (value : JSString)
  deriving DecidableEq, Repr

/-- The string `ids.join(',')`. -/
def joinComma : List JSString → JSString
  | [] => []
  | [a] => a
  | a :: b :: rest => a ++ 44 :: joinComma (b :: rest)

/-- Function `getHybridRecommendations` of `api.js` (lines 31-36). -/
def getHybridRecommendations (env : Env) (movieIds : MovieIds) (limit : Option Int) :
    ApiCall Body :=
  let movieIdsParam : JSString :=
    match movieIds with
    | .array ids => joinComma ids
    | .text value => value
  .fetch
    (env.API_BASE_URL ++ js "/recommendations/hybrid?movie_ids=" ++ movieIdsParam ++
      js "&limit=" ++ numToString (limit.getD 10))
    (js "Failed to get hybrid recommendations")

/-! ## `pages/MoviePage.jsx` -/

namespace MoviePage

/-- The six `useState` cells of `MoviePage` (lines 11-16). -/
structure State where
  movie : Option MovieDetail
  recommendations : List MovieItem
  isLoading : Bool
  isLoadingRecs : Bool
  error : Option JSString
  recError : Option JSString
  deriving DecidableEq, Repr

/-- The initial `useState` values. -/
def State.initial : State := ⟨none, [], true, true, none, none⟩

/-- Function `fetchMovieDetails` (lines 19-24) up to its `await`. -/
def fetchMovieDetails (env : Env) (id : JSString) (s : State) :
    State × ApiCall (Option MovieDetail) :=
  ({ s with isLoading := true, error := none }, getMovieDetails env id)

/-- Function `fetchMovieDetails` (lines 24-32) from the moment the awaited call
settles: the new state and the value assigned to `document.title`, if any.  A
`null` body is stored by `setMovie` before reading `data.title` throws into the
`catch`. -/
def fetchMovieDetails.resume (outcome : Settled (Option MovieDetail)) (s : State) :
    State × Option JSString :=
  match outcome with
  | .ok (some data) =>
    ({ s with movie := some data, isLoading := false },
      some (data.title.getD (js "undefined") ++ js " - MovieMind"))
  | .ok none =>
    ({ s with movie := none, error := some (js "Failed to load movie details"),
              isLoading := false }, none)
  | .error _ =>
    ({ s with error := some (js "Failed to load movie details"), isLoading := false }, none)

/-- Function `fetchRecommendations` (lines 35-40) up to its `await`. -/
def fetchRecommendations (env : Env) (id : JSString) (s : State) : State × ApiCall Body :=
  ({ s with isLoadingRecs := true, recError := none }, getRecommendations env id none)

/-- Function `fetchRecommendations` (lines 40-48) from the moment the awaited
call settles. -/
def fetchRecommendations.resume (outcome : Settled Body) (s : State) : State :=
  match outcome with
  | .ok (some data) =>
    { s with recommendations := data.results.getD [], isLoadingRecs := false }
  | _ =>
    { s with recError := some (js "Failed to load recommendations"), isLoadingRecs := false }

/-- The body of the effect (lines 50-53) for a route parameter `id` (`none` when
`useParams` has none): both functions run up to their `await`, in this order,
when `id` is truthy. -/
def runEffect (env : Env) (id : Option JSString) (s : State) :
    State × Option (ApiCall (Option MovieDetail) × ApiCall Body) :=
  match id with
  | none => (s, none)
  | some i =>
    if i = [] then (s, none)
    else
      ((fetchRecommendations env i (fetchMovieDetails env i s).1).1,
        some ((fetchMovieDetails env i s).2,
          (fetchRecommendations env i (fetchMovieDetails env i s).1).2))

end MoviePage

/-! ## `components/ErrorMessage.jsx` and `components/MovieGrid.jsx` -/

/-- The text shown by `ErrorMessage`: `message || 'Something went wrong. ...'`. -/
def ErrorMessage (message : Option JSString) : JSString :=
  match message with
  | some m => if m = [] then js "Something went wrong. Please try again later." else m
  | none => js "Something went wrong. Please try again later."

/-- What `MovieGrid` renders below its heading (lines 14-30). -/
inductive GridBody where
  | spinner
  | errorMessage (text : JSString)
  | cards (movies : List MovieItem)
  | noMovies
  deriving DecidableEq, Repr

/-- The props of `MovieGrid`; a prop that is not passed is `none`. -/
structure GridProps where
  movies : Option (List MovieItem)
  isLoading : Bool
  error : Option JSString
  title : Option JSString

/-- Truthiness of a string-or-null value. -/
def truthy (v : Option JSString) : Bool :=
  match v with
  | some m => !m.isEmpty
  | none => false

/-- Component `MovieGrid` (lines 7-33): the heading, if any, and the body. -/
def MovieGrid (props : GridProps) : Option JSString × GridBody :=
  (if truthy props.title then props.title else none,
    if props.isLoading then .spinner
    else if truthy props.error then .errorMessage (ErrorMessage props.error)
    else
      match props.movies with
      | some (m :: ms) => .cards (m :: ms)
      | _ => .noMovies)

/-! ## What `Search` and `AutocompleteSearch` render -/

/-- The pagination block of `Search` (lines 86-112). -/
structure Pagination where
  prevDisabled : Bool
  page : Int
  totalPages : Int
  nextDisabled : Bool
  deriving DecidableEq, Repr

/-- Function `getPageTitle` of `Search` (lines 64-71). -/
def Search.getPageTitle (l : Search.Location) : JSString :=
  if l.isTrendingPage then js "Trending Movies"
  else if l.query ≠ [] then
    if l.searchType = js "person" then js "Movies featuring \"" ++ l.query ++ js "\""
    else js "Search results for \"" ++ l.query ++ js "\""
  else js "Search movies"

/-- The pagination block of `Search` (lines 85-113), `none` when it is not
rendered. -/
def Search.pagination (l : Search.Location) (s : Search.State) : Option Pagination :=
  if s.totalPages > 1 ∧ l.isTrendingPage = false ∧ l.searchType ≠ js "person" then
    some ⟨decide (s.page = 1), s.page, s.totalPages, decide (s.page = s.totalPages)⟩
  else none

/-- The grid of `Search` (lines 79-83). -/
def Search.grid (s : Search.State) : Option JSString × GridBody :=
  MovieGrid ⟨some s.movies, s.isLoading, s.error, none⟩

/-- One row of the suggestion list (lines 94-121): the key and click target,
the image source when `poster_url` is truthy, the title and the year. -/
structure SuggestionRow where
  movieId : Nat
  poster : Option JSString
  title : JSString
  year : Option Nat
  deriving DecidableEq, Repr

/-- The row rendered for one suggestion. -/
def suggestionRow (movie : MovieItem) : SuggestionRow :=
  ⟨movie.id, if truthy movie.poster_url then movie.poster_url else none, movie.title,
    movie.year⟩

/-- What is rendered below the input of `AutocompleteSearch` (lines 87-128). -/
inductive Panel where
  | hidden
  | loading
  | rows (items : List SuggestionRow)
  | noResults
  deriving DecidableEq, Repr

/-- The suggestion panel of `AutocompleteSearch` (lines 87-128). -/
def suggestionPanel (s : ACState) : Panel :=
  if s.showSuggestions ∧ s.query.length ≥ 2 then
    if s.isLoading then .loading
    else if s.suggestions.length > 0 then .rows (s.suggestions.map suggestionRow)
    else .noResults
  else .hidden

/-! ## Decimal numerals -/

/-- The decimal numeral of `n` as a string, most significant digit first,
written from the digits of `Nat.digits 10 n` and not from `numToString`: the
text `<id>` of the route `/movie/<id>`. -/
def decimalText (n : Nat) : JSString :=
  if n = 0 then [48] else (Nat.digits 10 n).reverse.map (fun d => d + 48)

/-! ## Concrete scenarios -/

/-- A container holding the DOM nodes numbered below 10. -/
def demoContainer : Nat → Bool := fun node => decide (node < 10)

/-- A suggestion record. -/
def fightClub : MovieItem := ⟨550, js "Fight Club", some 1999, none⟩

/-- Another suggestion record. -/
def batman : MovieItem := ⟨268, js "Batman", some 1989, none⟩

/-- A 200 response whose body is `{results, total_pages}`. -/
def okResponse (results : List MovieItem) (totalPages : Option Int) :
    Settled (Response Body) :=
  .ok ⟨true, .ok (some ⟨some results, totalPages⟩)⟩

/-- A 500 response. -/
def failedResponse : Settled (Response Body) :=
  .ok ⟨false, .ok none⟩

/-- Typing "ab", waiting for the debounce, typing "c" and waiting again: two
autocomplete fetches are outstanding, number 0 for "ab" and number 1 for "abc". -/
def twoInFlight : World :=
  run stdEnv [.change (js "ab"), .elapse 300, .change (js "abc"), .elapse 300]
    (World.init demoContainer)

/-- Typing "ab", receiving one suggestion for it, then deleting the "b". -/
def shortAfterResults : World :=
  run stdEnv
    [.change (js "ab"), .elapse 300, .settle 0 (okResponse [fightClub] none),
      .change (js "a")]
    (World.init demoContainer)

/-- Suggestions for "ab" are shown while the fetch number 1, issued for "abc",
is outstanding. -/
def loadingWithResults : World :=
  run stdEnv
    [.change (js "ab"), .elapse 300, .settle 0 (okResponse [fightClub] none),
      .change (js "abc"), .elapse 300]
    (World.init demoContainer)

/-- The search page for "a", two clicks on Next after the server reported five
pages: the cursor stands on page 3. -/
def thirdPage : Search.World :=
  Search.run stdEnv
    [.settle 0 (okResponse [batman] (some 5)), .next,
      .settle 1 (okResponse [batman] (some 5)), .next,
      .settle 2 (okResponse [batman] (some 5))]
    (Search.World.init stdEnv ⟨js "/search", some (js "a"), none⟩)

/-- A lone high surrogate typed into the input. -/
def loneSurrogateTyped : World :=
  run stdEnv [.change [0xD800]] (World.init demoContainer)

/-- The query "bat man" typed into the input. -/
def batManTyped : World :=
  run stdEnv [.change (js "bat man")] (World.init demoContainer)

/-- A movie detail record. -/
def fightClubDetail : MovieDetail := ⟨some 550, some (js "Fight Club")⟩

/-! ## General facts -/

theorem reachable_run (env : Env) (es : List Event) :
    ∀ w : World, Reachable env w → Reachable env (run env es w) := by
  induction es with
  | nil => intro w h; exact h
  | cons e es ih => intro w h; exact ih _ (Reachable.step e h)

theorem rerunDebounce_ui (previous : JSString) (w : World) :
    (rerunDebounce previous w).ui = w.ui := by
  unfold rerunDebounce
  split <;> rfl

theorem rerunDebounce_navigated (previous : JSString) (w : World) :
    (rerunDebounce previous w).navigated = w.navigated := by
  unfold rerunDebounce
  split <;> rfl

theorem step_change_of_ne (env : Env) (w : World) (v : JSString) (h : v ≠ w.ui.query) :
    step env (.change v) w =
      { w with ui := onChange v w.ui, debounceTimeout := some (w.now + 300, v) } := by
  simp [step, rerunDebounce, onChange, h]

theorem step_elapse_early (env : Env) (w : World) (ms deadline : Nat) (q : JSString)
    (htimer : w.debounceTimeout = some (deadline, q)) (h : w.now + ms < deadline) :
    step env (.elapse ms) w = { w with now := w.now + ms } := by
  have hlt : ¬ (deadline ≤ w.now + ms) := by omega
  simp [step, htimer, hlt]

theorem step_elapse_due (env : Env) (w : World) (ms deadline : Nat) (q : JSString)
    (htimer : w.debounceTimeout = some (deadline, q)) (h : deadline ≤ w.now + ms) :
    step env (.elapse ms) w = { fireTimeout env q w with now := w.now + ms } := by
  simp [step, htimer, h]

theorem step_elapse_idle (env : Env) (w : World) (ms : Nat)
    (htimer : w.debounceTimeout = none) :
    step env (.elapse ms) w = { w with now := w.now + ms } := by
  simp [step, htimer]

/-! ## The minimum-length gate -/

/-- C3: for a query shorter than 2 code units, `fetchSuggestions` clears the
suggestions and returns before calling `getAutocompleteSuggestions`, the timer
callback adds no HTTP request and no outstanding call, and
`getAutocompleteSuggestions` itself settles with `{results: []}` without a
fetch, for such a query and for a missing one. -/
theorem min_length_gate (env : Env) (q : JSString) (h : q.length < 2) :
    (∀ s : ACState, fetchSuggestions env q s = ({ s with suggestions := [] }, none)) ∧
    (∀ w : World, (fireTimeout env q w).requests = w.requests ∧
      (fireTimeout env q w).inflight = w.inflight) ∧
    getAutocompleteSuggestions env (some q) = .settled (.ok (some ⟨some [], none⟩)) ∧
    getAutocompleteSuggestions env none = .settled (.ok (some ⟨some [], none⟩)) := by
  refine ⟨?_, ?_, ?_, rfl⟩
  · intro s
    simp [fetchSuggestions, h]
  · intro w
    simp [fireTimeout, fetchSuggestions, h]
  · simp [getAutocompleteSuggestions, h]

theorem min_length_gate_witness :
    (js "b").length < 2 ∧
    ((∀ s : ACState, fetchSuggestions stdEnv (js "b") s = ({ s with suggestions := [] }, none)) ∧
    (∀ w : World, (fireTimeout stdEnv (js "b") w).requests = w.requests ∧
      (fireTimeout stdEnv (js "b") w).inflight = w.inflight) ∧
    getAutocompleteSuggestions stdEnv (some (js "b")) = .settled (.ok (some ⟨some [], none⟩)) ∧
    getAutocompleteSuggestions stdEnv none = .settled (.ok (some ⟨some [], none⟩))) :=
  ⟨by decide, min_length_gate stdEnv (js "b") (by decide)⟩

/-! ## Page navigation -/

/-- C7: `handleNextPage` leaves the state unchanged when `page = totalPages` and
sets `page` to `page + 1`, touching nothing else, when `page < totalPages`;
`handlePrevPage` leaves the state unchanged when `page = 1` and sets `page` to
`page - 1`, touching nothing else, when `page > 1`. -/
theorem page_navigation (s : Search.State) :
    (s.page = s.totalPages → (Search.handleNextPage s).1 = s) ∧
    (s.page < s.totalPages →
      (Search.handleNextPage s).1 = { s with page := s.page + 1 }) ∧
    (s.page = 1 → (Search.handlePrevPage s).1 = s) ∧
    (s.page > 1 → (Search.handlePrevPage s).1 = { s with page := s.page - 1 }) := by
  refine ⟨?_, ?_, ?_, ?_⟩
  · intro h
    simp [Search.handleNextPage, h]
  · intro h
    simp [Search.handleNextPage, h]
  · intro h
    simp [Search.handlePrevPage, h]
  · intro h
    simp [Search.handlePrevPage, h]

theorem page_navigation_witness :
    (Search.handleNextPage ⟨[batman], false, none, 5, 5⟩).1 = ⟨[batman], false, none, 5, 5⟩ ∧
    (Search.handleNextPage ⟨[batman], false, none, 2, 5⟩).1 = ⟨[batman], false, none, 3, 5⟩ ∧
    (Search.handlePrevPage ⟨[batman], false, none, 1, 5⟩).1 = ⟨[batman], false, none, 1, 5⟩ ∧
    (Search.handlePrevPage ⟨[batman], false, none, 2, 5⟩).1 = ⟨[batman], false, none, 1, 5⟩ :=
  ⟨(page_navigation ⟨[batman], false, none, 5, 5⟩).1 rfl,
    (page_navigation ⟨[batman], false, none, 2, 5⟩).2.1 (by decide),
    (page_navigation ⟨[batman], false, none, 1, 5⟩).2.2.1 rfl,
    (page_navigation ⟨[batman], false, none, 2, 5⟩).2.2.2 (by decide)⟩

/-! ## Failure of the suggestion fetch -/

/-- C8: when the call awaited by `fetchSuggestions` rejects, the continuation
only clears `isLoading`: `suggestions`, `query` and `showSuggestions` keep their
values and `fetchSuggestions` itself fulfils.  The same holds for the whole
component when an outstanding call completes with a rejection. -/
theorem failed_fetch_keeps_suggestions (env : Env) (e : JsError) :
    (∀ s : ACState,
      (fetchSuggestions.resume (.error e) s).1 = { s with isLoading := false } ∧
      (fetchSuggestions.resume (.error e) s).2 = .ok ()) ∧
    (∀ (w : World) (id : Nat) (p : Pending) (response : Settled (Response Body)),
      w.inflight.find? (fun p => p.id == id) = some p →
      p.call.complete response = .error e →
      (step env (.settle id response) w).ui.suggestions = w.ui.suggestions ∧
      (step env (.settle id response) w).ui.isLoading = false ∧
      (step env (.settle id response) w).ui.query = w.ui.query ∧
      (step env (.settle id response) w).ui.showSuggestions = w.ui.showSuggestions) := by
  constructor
  · intro s
    exact ⟨rfl, rfl⟩
  · intro w id p response hfind hfail
    simp [step, hfind, hfail, fetchSuggestions.resume]

theorem failed_fetch_keeps_suggestions_witness :
    loadingWithResults.inflight.find? (fun p => p.id == 1) =
      some ⟨1, js "abc", .fetch (js "http://localhost:5002/api/autocomplete?query=abc")
        (js "Failed to get suggestions")⟩ ∧
    loadingWithResults.ui.suggestions = [fightClub] ∧
    loadingWithResults.ui.isLoading = true ∧
    (step stdEnv (.settle 1 failedResponse) loadingWithResults).ui.suggestions = [fightClub] ∧
    (step stdEnv (.settle 1 failedResponse) loadingWithResults).ui.isLoading = false ∧
    (step stdEnv (.settle 1 failedResponse) loadingWithResults).ui.query = js "abc" ∧
    (step stdEnv (.settle 1 failedResponse) loadingWithResults).ui.showSuggestions = true :=
  ⟨rfl, rfl, rfl,
    (failed_fetch_keeps_suggestions stdEnv ⟨js "Error", js "Failed to get suggestions"⟩).2
      loadingWithResults 1 _ failedResponse rfl rfl⟩

/-! ## Selecting a suggestion -/

theorem utf16_digitChar (d : Nat) (h : d < 10) : utf16 (Nat.digitChar d) = [d + 48] := by
  interval_cases d <;> rfl

theorem decimalText_of_lt_ten (n : Nat) (h : n < 10) : decimalText n = [n + 48] := by
  unfold decimalText
  by_cases h0 : n = 0
  · simp [h0]
  · have hpos : 0 < n := Nat.pos_of_ne_zero h0
    rw [if_neg h0, Nat.digits_def' (by decide) hpos, Nat.mod_eq_of_lt h,
      Nat.div_eq_of_lt h]
    simp

theorem decimalText_step (n : Nat) (h : n / 10 ≠ 0) :
    decimalText n = decimalText (n / 10) ++ [n % 10 + 48] := by
  have hn : n ≠ 0 := by
    intro h0
    rw [h0] at h
    exact h rfl
  unfold decimalText
  rw [if_neg hn, if_neg h, Nat.digits_def' (by decide) (Nat.pos_of_ne_zero hn)]
  simp

theorem toDigitsCore_decimalText (fuel : Nat) :
    ∀ (n : Nat) (ds : List Char), n < fuel →
      utf16s (Nat.toDigitsCore 10 fuel n ds) = decimalText n ++ utf16s ds := by
  induction fuel with
  | zero => intro n ds h; omega
  | succ fuel ih =>
    intro n ds h
    have hdigit : utf16 (Nat.digitChar (n % 10)) = [n % 10 + 48] :=
      utf16_digitChar (n % 10) (Nat.mod_lt n (by decide))
    unfold Nat.toDigitsCore
    by_cases hq : n / 10 = 0
    · have hlt : n < 10 := by omega
      simp only [hq, if_true]
      show utf16 (Nat.digitChar (n % 10)) ++ utf16s ds = decimalText n ++ utf16s ds
      rw [hdigit, decimalText_of_lt_ten n hlt, Nat.mod_eq_of_lt hlt]
    · simp only [hq, if_false]
      rw [ih (n / 10) _ (by omega), decimalText_step n hq]
      show decimalText (n / 10) ++ (utf16 (Nat.digitChar (n % 10)) ++ utf16s ds) = _
      rw [hdigit, List.append_assoc]

/-- On natural numbers `numToString` writes the decimal numeral. -/
theorem numToString_ofNat (n : Nat) : numToString (Int.ofNat n) = decimalText n := by
  show utf16s (Nat.toDigitsCore 10 (n + 1) n []) = decimalText n
  rw [toDigitsCore_decimalText (n + 1) n [] (Nat.lt_succ_self n)]
  show decimalText n ++ [] = decimalText n
  exact List.append_nil _

/-- C9: for a movie id that is a safe integer (below 2^53, where the template
literal prints the plain decimal numeral), `handleSuggestionClick(id)` passes the
route `/movie/` followed by the decimal numeral of the id to `navigate`, sets
`query` to the empty string and `showSuggestions` to false, and leaves
`suggestions` and `isLoading` as they are. -/
theorem suggestion_click (env : Env) (w : World) (movieId : Nat)
    (_hsafe : movieId < 2 ^ 53) :
    (step env (.clickSuggestion movieId) w).navigated =
      w.navigated ++ [[47, 109, 111, 118, 105, 101, 47] ++ decimalText movieId] ∧
    (step env (.clickSuggestion movieId) w).ui.query = [] ∧
    (step env (.clickSuggestion movieId) w).ui.showSuggestions = false ∧
    (handleSuggestionClick movieId w.ui).1 =
      { w.ui with query := [], showSuggestions := false } := by
  have hroute : (handleSuggestionClick movieId w.ui).2 =
      [47, 109, 111, 118, 105, 101, 47] ++ decimalText movieId := by
    show js "/movie/" ++ numToString (Int.ofNat movieId) = _
    rw [numToString_ofNat]
    rfl
  refine ⟨?_, ?_, ?_, rfl⟩
  · show (rerunDebounce w.ui.query _).navigated = _
    rw [rerunDebounce_navigated]
    show w.navigated ++ [(handleSuggestionClick movieId w.ui).2] = _
    rw [hroute]
  · show (rerunDebounce w.ui.query _).ui.query = []
    rw [rerunDebounce_ui]
    rfl
  · show (rerunDebounce w.ui.query _).ui.showSuggestions = false
    rw [rerunDebounce_ui]
    rfl

theorem suggestion_click_witness :
    550 < 2 ^ 53 ∧
    twoInFlight.ui.query = [97, 98, 99] ∧
    twoInFlight.ui.showSuggestions = true ∧
    (step stdEnv (.clickSuggestion 550) twoInFlight).navigated =
      [[47, 109, 111, 118, 105, 101, 47, 53, 53, 48]] ∧
    (step stdEnv (.clickSuggestion 550) twoInFlight).ui.query = [] ∧
    (step stdEnv (.clickSuggestion 550) twoInFlight).ui.showSuggestions = false := by
  have h := suggestion_click stdEnv twoInFlight 550 (by decide)
  have hdigits : decimalText 550 = [53, 53, 48] := by
    simp [decimalText]
  rw [hdigits] at h
  exact ⟨by decide, by decide, by decide, h.1, h.2.1, h.2.2.1⟩

theorem suggestion_click_route_550 (s : ACState) :
    (handleSuggestionClick 550 s).2 = js "/movie/550" := by
  show js "/movie/" ++ numToString (Int.ofNat 550) = js "/movie/550"
  decide

/-! ## Click-outside dismissal -/

theorem fireTimeout_searchRef (env : Env) (q : JSString) (w : World) :
    (fireTimeout env q w).searchRef = w.searchRef := by
  unfold fireTimeout
  split <;> rfl

theorem step_searchRef (env : Env) (e : Event) (w : World) :
    (step env e w).searchRef = w.searchRef := by
  cases e with
  | change v =>
    simp only [step, rerunDebounce]
    split <;> rfl
  | clickSuggestion movieId =>
    simp only [step, rerunDebounce]
    split <;> rfl
  | focus => rfl
  | mousedown target => rfl
  | elapse ms =>
    simp only [step]
    split
    · split
      · exact fireTimeout_searchRef env _ w
      · rfl
    · rfl
  | settle id response =>
    simp only [step]
    split <;> rfl
  | submit =>
    simp only [step]
    split <;> rfl

/-- In every state reachable from mount the ref is attached to a container. -/
theorem reachable_searchRef (env : Env) (w : World) (h : Reachable env w) :
    ∃ contains, w.searchRef = some contains := by
  induction h with
  | init container => exact ⟨container, rfl⟩
  | step e _ ih =>
    obtain ⟨c, hc⟩ := ih
    exact ⟨c, by rw [step_searchRef, hc]⟩

/-- C10: with the ref attached to the container, a mousedown whose target is
outside the container sets `showSuggestions` to false and keeps `query`,
`suggestions` and `isLoading`; a mousedown whose target is inside leaves the
whole component untouched. -/
theorem click_outside (env : Env) (w : World) (contains : Nat → Bool) (target : Nat)
    (href : w.searchRef = some contains) :
    (contains target = false →
      (step env (.mousedown target) w).ui = { w.ui with showSuggestions := false }) ∧
    (contains target = true → step env (.mousedown target) w = w) := by
  constructor
  · intro h
    simp [step, handleClickOutside, href, h]
  · intro h
    have hsame : handleClickOutside w.searchRef target w.ui = w.ui := by
      simp [handleClickOutside, href, h]
    show { w with ui := handleClickOutside w.searchRef target w.ui } = w
    rw [hsame]

theorem click_outside_witness :
    twoInFlight.searchRef = some demoContainer ∧
    (step stdEnv (.mousedown 42) twoInFlight).ui =
      { twoInFlight.ui with showSuggestions := false } ∧
    step stdEnv (.mousedown 3) twoInFlight = twoInFlight :=
  ⟨rfl, (click_outside stdEnv twoInFlight demoContainer 42 rfl).1 (by decide),
    (click_outside stdEnv twoInFlight demoContainer 3 rfl).2 (by decide)⟩

/-! ## Staleness -/

/-- C1 fails on the code: with fetch 0 (for "ab") and the later fetch 1 (for
"abc") outstanding, the response of fetch 1 is applied first and shows Batman;
the late response of fetch 0 then replaces it by Fight Club, although the query
is still "abc". -/
theorem stale_response_overwrites :
    Reachable stdEnv twoInFlight ∧
    twoInFlight.inflight.map (fun p => (p.id, p.query)) = [(0, js "ab"), (1, js "abc")] ∧
    twoInFlight.ui.query = js "abc" ∧
    (step stdEnv (.settle 1 (okResponse [batman] none)) twoInFlight).ui.suggestions
      = [batman] ∧
    (step stdEnv (.settle 0 (okResponse [fightClub] none))
      (step stdEnv (.settle 1 (okResponse [batman] none)) twoInFlight)).ui.suggestions
      = [fightClub] ∧
    (step stdEnv (.settle 0 (okResponse [fightClub] none))
      (step stdEnv (.settle 1 (okResponse [batman] none)) twoInFlight)).ui.query
      = js "abc" :=
  ⟨reachable_run stdEnv _ _ (Reachable.init demoContainer), by decide, by decide, by decide,
    by decide, by decide⟩

/-- C1 as amended: an ok response with a JSON object body, arriving for any
outstanding fetch, replaces the suggestion set by its `results` (the empty list
when the key is absent), whatever the current query is and whichever fetch was
issued last. -/
theorem last_response_wins (env : Env) (w : World) (id : Nat) (p : Pending)
    (url msg : JSString) (data : Payload)
    (hfind : w.inflight.find? (fun p => p.id == id) = some p)
    (hcall : p.call = .fetch url msg) :
    (step env (.settle id (.ok ⟨true, .ok (some data)⟩)) w).ui.suggestions
      = data.results.getD [] := by
  simp [step, hfind, hcall, ApiCall.complete, fetchSuggestions.resume]

theorem last_response_wins_witness :
    (step stdEnv (.settle 1 (okResponse [batman] none)) twoInFlight).inflight.find?
        (fun p => p.id == 0) =
      some ⟨0, js "ab", .fetch (js "http://localhost:5002/api/autocomplete?query=ab")
        (js "Failed to get suggestions")⟩ ∧
    (step stdEnv (.settle 0 (.ok ⟨true, .ok (some ⟨some [fightClub], none⟩)⟩))
      (step stdEnv (.settle 1 (okResponse [batman] none)) twoInFlight)).ui.suggestions
      = [fightClub] :=
  ⟨rfl, last_response_wins stdEnv
    (step stdEnv (.settle 1 (okResponse [batman] none)) twoInFlight) 0 _ _ _
    ⟨some [fightClub], none⟩ rfl rfl⟩

/-! ## Clearing on a short query -/

/-- C4 fails on the code: right after the query changes from "ab" to "a", before
any timer fires, the query is shorter than 2 and the suggestion set still holds
Fight Club. -/
theorem short_query_keeps_suggestions :
    Reachable stdEnv shortAfterResults ∧
    shortAfterResults.ui.query = js "a" ∧
    shortAfterResults.ui.query.length < 2 ∧
    shortAfterResults.debounceTimeout = some (600, js "a") ∧
    shortAfterResults.ui.suggestions = [fightClub] :=
  ⟨reachable_run stdEnv _ _ (Reachable.init demoContainer), by decide, by decide, by decide,
    by decide⟩

/-- C4 as amended: when the query changes to a string shorter than 2 code
units, the change itself leaves the suggestion set as it was, and so does any
wait shorter than 300ms; the set is cleared when the debounce timer fires,
300ms after the change. -/
theorem short_query_cleared_by_timer (env : Env) (w : World) (v : JSString) (ms : Nat)
    (hlen : v.length < 2) (hchange : v ≠ w.ui.query) :
    (step env (.change v) w).ui.suggestions = w.ui.suggestions ∧
    (ms < 300 →
      (step env (.elapse ms) (step env (.change v) w)).ui.suggestions = w.ui.suggestions) ∧
    (300 ≤ ms → (step env (.elapse ms) (step env (.change v) w)).ui.suggestions = []) := by
  rw [step_change_of_ne env w v hchange]
  refine ⟨rfl, ?_, ?_⟩
  · intro h
    rw [step_elapse_early env _ ms (w.now + 300) v rfl (by show w.now + ms < w.now + 300; omega)]
    rfl
  · intro h
    rw [step_elapse_due env _ ms (w.now + 300) v rfl (by show w.now + 300 ≤ w.now + ms; omega)]
    simp [fireTimeout, fetchSuggestions, hlen]

theorem short_query_cleared_by_timer_witness :
    (js "a").length < 2 ∧ js "a" ≠ loadingWithResults.ui.query ∧
    loadingWithResults.ui.suggestions = [fightClub] ∧
    (step stdEnv (.change (js "a")) loadingWithResults).ui.suggestions = [fightClub] ∧
    (299 < 300 →
      (step stdEnv (.elapse 299) (step stdEnv (.change (js "a")) loadingWithResults)).ui.suggestions
        = [fightClub]) ∧
    (300 ≤ 299 →
      (step stdEnv (.elapse 299) (step stdEnv (.change (js "a")) loadingWithResults)).ui.suggestions
        = []) :=
  ⟨by decide, by decide, rfl,
    short_query_cleared_by_timer stdEnv loadingWithResults (js "a") 299 (by decide) (by decide)⟩

/-! ## The page cursor -/

theorem search_reachable_run (env : Env) (es : List Search.Event) :
    ∀ w : Search.World, Search.Reachable env w → Search.Reachable env (Search.run env es w) := by
  induction es with
  | nil => intro w h; exact h
  | cons e es ih => intro w h; exact ih _ (Search.Reachable.step e h)

theorem fetchMovies_page (env : Env) (t : Bool) (q : JSString) (pg : Int) (ty : JSString)
    (s : Search.State) :
    (Search.fetchMovies env t q pg ty s).1.page = s.page ∧
    (Search.fetchMovies env t q pg ty s).1.totalPages = s.totalPages := by
  unfold Search.fetchMovies
  split
  · exact ⟨rfl, rfl⟩
  · split <;> exact ⟨rfl, rfl⟩

theorem runEffect_page (env : Env) (w : Search.World) :
    (Search.runEffect env w).ui.page = w.ui.page ∧
    (Search.runEffect env w).ui.totalPages = w.ui.totalPages := by
  have h := fetchMovies_page env w.location.isTrendingPage w.location.query w.ui.page
    w.location.searchType w.ui
  unfold Search.runEffect
  split
  · next ui heq => rw [heq] at h; exact h
  · next ui inv call heq => rw [heq] at h; exact h

theorem rerunEffect_page (env : Env) (previous : JSString × Int × Bool × JSString)
    (w : Search.World) :
    (Search.rerunEffect env previous w).ui.page = w.ui.page ∧
    (Search.rerunEffect env previous w).ui.totalPages = w.ui.totalPages := by
  unfold Search.rerunEffect
  split
  · exact ⟨rfl, rfl⟩
  · exact runEffect_page env w

/-- C5 fails on the code: with the cursor on page 3 of the results for "a",
changing the query to "b" leaves the cursor on 3, and the fetch issued for the
new query is `searchMovies("b", 3, "movie")`, requesting `page=3`. -/
theorem query_change_fetches_old_page :
    Search.Reachable stdEnv thirdPage ∧
    thirdPage.location.query = js "a" ∧
    thirdPage.ui.page = 3 ∧
    (Search.step stdEnv (.navigate ⟨js "/search", some (js "b"), none⟩) thirdPage).ui.page
      = 3 ∧
    (Search.step stdEnv (.navigate ⟨js "/search", some (js "b"), none⟩) thirdPage).issued.getLast?
      = some (.searchMovies (js "b") 3 (js "movie")) ∧
    ((Search.step stdEnv (.navigate ⟨js "/search", some (js "b"), none⟩)
        thirdPage).inflight.getLast?).map (fun p => p.call)
      = some (.fetch (js "http://localhost:5002/api/search?query=b&page=3")
          (js "Failed to search movies")) :=
  ⟨search_reachable_run stdEnv _ _ (Search.Reachable.init _), by decide, by decide, by decide,
    by decide, rfl⟩

/-- C5 as amended: when the query or the searchType URL parameter changes (to a
non-empty query, off the trending route), the page cursor keeps its value, and
the fetch issued for the new context is `searchMovies(newQuery, page,
newSearchType)` with the page of before the change. -/
theorem query_change_keeps_page (env : Env) (w : Search.World) (loc : Search.Location)
    (hchanged : loc.query ≠ w.location.query ∨ loc.searchType ≠ w.location.searchType)
    (hsearch : loc.isTrendingPage = false) (hquery : loc.query ≠ []) :
    (Search.step env (.navigate loc) w).ui.page = w.ui.page ∧
    (Search.step env (.navigate loc) w).issued =
      w.issued ++ [.searchMovies loc.query w.ui.page loc.searchType] := by
  have hdeps : ¬ ((({ w with location := loc } : Search.World).deps) = w.deps) := by
    intro h
    simp only [Search.World.deps, Prod.mk.injEq] at h
    rcases hchanged with hc | hc
    · exact hc h.1
    · exact hc h.2.2.2
  constructor
  · exact (rerunEffect_page env w.deps { w with location := loc }).1
  · simp [Search.step, Search.rerunEffect, hdeps, Search.runEffect, Search.fetchMovies,
      hsearch, hquery]

theorem query_change_keeps_page_witness :
    ((⟨js "/search", some (js "b"), none⟩ : Search.Location).query ≠ thirdPage.location.query ∨
      (⟨js "/search", some (js "b"), none⟩ : Search.Location).searchType
        ≠ thirdPage.location.searchType) ∧
    (Search.step stdEnv (.navigate ⟨js "/search", some (js "b"), none⟩) thirdPage).ui.page
      = thirdPage.ui.page ∧
    (Search.step stdEnv (.navigate ⟨js "/search", some (js "b"), none⟩) thirdPage).issued =
      thirdPage.issued ++
        [.searchMovies (js "b") thirdPage.ui.page (js "movie")] :=
  ⟨Or.inl (by decide),
    query_change_keeps_page stdEnv thirdPage ⟨js "/search", some (js "b"), none⟩
      (Or.inl (by decide)) rfl (by decide)⟩

/-- C6 fails on the code: in the state right after mount the cursor is 1 and
`totalPages` is 0, so `page <= totalPages` does not hold. -/
theorem initial_page_exceeds_total :
    Search.Reachable stdEnv (Search.World.init stdEnv ⟨js "/search", some (js "a"), none⟩) ∧
    (Search.World.init stdEnv ⟨js "/search", some (js "a"), none⟩).ui.page = 1 ∧
    (Search.World.init stdEnv ⟨js "/search", some (js "a"), none⟩).ui.totalPages = 0 ∧
    ¬ (1 ≤ (Search.World.init stdEnv ⟨js "/search", some (js "a"), none⟩).ui.page ∧
      (Search.World.init stdEnv ⟨js "/search", some (js "a"), none⟩).ui.page ≤
        (Search.World.init stdEnv ⟨js "/search", some (js "a"), none⟩).ui.totalPages) :=
  ⟨Search.Reachable.init _, by decide, by decide, by decide⟩

theorem resume_page (t : Bool) (o : Settled Body) (s : Search.State) :
    (Search.fetchMovies.resume t o s).page = s.page := by
  unfold Search.fetchMovies.resume
  split <;> rfl

theorem step_page_ge_one (env : Env) (e : Search.Event) (w : Search.World)
    (h : 1 ≤ w.ui.page) : 1 ≤ (Search.step env e w).ui.page := by
  cases e with
  | navigate loc =>
    show 1 ≤ (Search.rerunEffect env w.deps { w with location := loc }).ui.page
    rw [(rerunEffect_page env w.deps _).1]
    exact h
  | next =>
    show 1 ≤ (Search.rerunEffect env w.deps
      { w with ui := (Search.handleNextPage w.ui).1 }).ui.page
    rw [(rerunEffect_page env w.deps _).1]
    show 1 ≤ (Search.handleNextPage w.ui).1.page
    unfold Search.handleNextPage
    split
    · show 1 ≤ w.ui.page + 1
      omega
    · exact h
  | prev =>
    show 1 ≤ (Search.rerunEffect env w.deps
      { w with ui := (Search.handlePrevPage w.ui).1 }).ui.page
    rw [(rerunEffect_page env w.deps _).1]
    show 1 ≤ (Search.handlePrevPage w.ui).1.page
    unfold Search.handlePrevPage
    split
    · next hgt =>
      show 1 ≤ w.ui.page - 1
      omega
    · exact h
  | settle id response =>
    simp only [Search.step]
    split
    · show 1 ≤ (Search.fetchMovies.resume _ _ w.ui).page
      rw [resume_page]
      exact h
    · exact h

/-- C6 as amended: in every reachable state `1 <= page`; and when
`page <= totalPages` holds, it still holds after `handleNextPage` and after
`handlePrevPage`. -/
theorem page_at_least_one (env : Env) (w : Search.World) (h : Search.Reachable env w) :
    1 ≤ w.ui.page ∧
    (w.ui.page ≤ w.ui.totalPages →
      (Search.step env .next w).ui.page ≤ (Search.step env .next w).ui.totalPages ∧
      (Search.step env .prev w).ui.page ≤ (Search.step env .prev w).ui.totalPages) := by
  constructor
  · induction h with
    | init loc =>
      show 1 ≤ (Search.runEffect env _).ui.page
      rw [(runEffect_page env _).1]
      show (1 : Int) ≤ 1
      exact le_refl _
    | step e _ ih => exact step_page_ge_one env e _ ih
  · intro hle
    constructor
    · show (Search.rerunEffect env w.deps
          { w with ui := (Search.handleNextPage w.ui).1 }).ui.page ≤
        (Search.rerunEffect env w.deps
          { w with ui := (Search.handleNextPage w.ui).1 }).ui.totalPages
      rw [(rerunEffect_page env w.deps _).1, (rerunEffect_page env w.deps _).2]
      show (Search.handleNextPage w.ui).1.page ≤ (Search.handleNextPage w.ui).1.totalPages
      unfold Search.handleNextPage
      split
      · next hlt =>
        show w.ui.page + 1 ≤ w.ui.totalPages
        omega
      · exact hle
    · show (Search.rerunEffect env w.deps
          { w with ui := (Search.handlePrevPage w.ui).1 }).ui.page ≤
        (Search.rerunEffect env w.deps
          { w with ui := (Search.handlePrevPage w.ui).1 }).ui.totalPages
      rw [(rerunEffect_page env w.deps _).1, (rerunEffect_page env w.deps _).2]
      show (Search.handlePrevPage w.ui).1.page ≤ (Search.handlePrevPage w.ui).1.totalPages
      unfold Search.handlePrevPage
      split
      · show w.ui.page - 1 ≤ w.ui.totalPages
        omega
      · exact hle

theorem page_at_least_one_witness :
    Search.Reachable stdEnv thirdPage ∧
    1 ≤ thirdPage.ui.page ∧
    (Search.step stdEnv .next thirdPage).ui.page ≤
      (Search.step stdEnv .next thirdPage).ui.totalPages ∧
    (Search.step stdEnv .prev thirdPage).ui.page ≤
      (Search.step stdEnv .prev thirdPage).ui.totalPages :=
  ⟨search_reachable_run stdEnv _ _ (Search.Reachable.init _),
    (page_at_least_one stdEnv thirdPage
      (search_reachable_run stdEnv _ _ (Search.Reachable.init _))).1,
    (page_at_least_one stdEnv thirdPage
      (search_reachable_run stdEnv _ _ (Search.Reachable.init _))).2 (by decide)⟩

/-! ## Debounce -/

theorem run_append (env : Env) (es₁ es₂ : List Event) :
    ∀ w : World, run env (es₁ ++ es₂) w = run env es₂ (run env es₁ w) := by
  induction es₁ with
  | nil => intro w; rfl
  | cons e es ih => intro w; exact ih (step env e w)

theorem resume_query (o : Settled Body) (s : ACState) :
    (fetchSuggestions.resume o s).1.query = s.query := by
  unfold fetchSuggestions.resume
  split <;> rfl

theorem handleClickOutside_query (current : Option (Nat → Bool)) (target : Nat)
    (s : ACState) : (handleClickOutside current target s).query = s.query := by
  unfold handleClickOutside
  split
  · split <;> rfl
  · rfl

/-- A passive event other than the passing of time leaves the clock, the pending
timer, the log of timer callbacks and the query as they are. -/
theorem step_passive_frame (env : Env) (e : Event) (w : World)
    (hpassive : e.isPassive = true) (htime : ∀ ms, e ≠ .elapse ms) :
    (step env e w).debounceTimeout = w.debounceTimeout ∧
    (step env e w).fired = w.fired ∧
    (step env e w).now = w.now ∧
    (step env e w).ui.query = w.ui.query := by
  cases e with
  | change v => simp [Event.isPassive] at hpassive
  | clickSuggestion movieId => simp [Event.isPassive] at hpassive
  | elapse ms => exact absurd rfl (htime ms)
  | focus => exact ⟨rfl, rfl, rfl, rfl⟩
  | mousedown target =>
    exact ⟨rfl, rfl, rfl, handleClickOutside_query w.searchRef target w.ui⟩
  | settle id response =>
    simp only [step]
    split
    · exact ⟨rfl, rfl, rfl, resume_query _ _⟩
    · exact ⟨rfl, rfl, rfl, rfl⟩
  | submit =>
    simp only [step]
    split
    · next ui route heq =>
      refine ⟨rfl, rfl, rfl, ?_⟩
      show ui.query = w.ui.query
      unfold handleSearch at heq
      split at heq
      · split at heq
        · cases heq
        · next encoded _ =>
          cases heq
          rfl
      · cases heq
    · next ui heq =>
      refine ⟨rfl, rfl, rfl, ?_⟩
      show ui.query = w.ui.query
      unfold handleSearch at heq
      split at heq
      · split at heq
        · cases heq
        · cases heq
      · cases heq
        rfl
    · exact ⟨rfl, rfl, rfl, rfl⟩

theorem elapsed_cons_passive (e : Event) (es : List Event) (htime : ∀ ms, e ≠ .elapse ms) :
    elapsed (e :: es) = elapsed es := by
  cases e with
  | elapse ms => exact absurd rfl (htime ms)
  | change v => rfl
  | focus => rfl
  | settle id response => rfl
  | mousedown target => rfl
  | submit => rfl
  | clickSuggestion movieId => rfl

theorem fireTimeout_frame (env : Env) (q : JSString) (w : World) :
    (fireTimeout env q w).debounceTimeout = none ∧
    (fireTimeout env q w).fired = w.fired ++ [q] := by
  unfold fireTimeout
  split <;> exact ⟨rfl, rfl⟩

/-- With no timer pending, passive events run no timer callback. -/
theorem passive_idle (env : Env) (ps : List Event) :
    ∀ w : World, (∀ e ∈ ps, e.isPassive = true) → w.debounceTimeout = none →
      (run env ps w).debounceTimeout = none ∧ (run env ps w).fired = w.fired := by
  induction ps with
  | nil => intro w _ h; exact ⟨h, rfl⟩
  | cons e ps ih =>
    intro w hp hidle
    have hps : ∀ e' ∈ ps, e'.isPassive = true := fun e' he' => hp e' (List.mem_cons_of_mem _ he')
    by_cases htime : ∃ ms, e = .elapse ms
    · obtain ⟨ms, rfl⟩ := htime
      have hstep := step_elapse_idle env w ms hidle
      have h := ih (step env (.elapse ms) w) hps (by rw [hstep]; exact hidle)
      show (run env ps (step env (.elapse ms) w)).debounceTimeout = none ∧
        (run env ps (step env (.elapse ms) w)).fired = w.fired
      refine ⟨h.1, ?_⟩
      rw [h.2, hstep]
    · have htime' : ∀ ms, e ≠ .elapse ms := fun ms h => htime ⟨ms, h⟩
      have hf := step_passive_frame env e w (hp e (List.mem_cons_self _ _)) htime'
      have h := ih (step env e w) hps (by rw [hf.1]; exact hidle)
      show (run env ps (step env e w)).debounceTimeout = none ∧
        (run env ps (step env e w)).fired = w.fired
      refine ⟨h.1, ?_⟩
      rw [h.2, hf.2.1]

/-- While less time passes than the pending timer needs, passive events leave
the timer pending and run no timer callback. -/
theorem passive_early (env : Env) (ps : List Event) :
    ∀ (w : World) (deadline : Nat) (q : JSString),
      (∀ e ∈ ps, e.isPassive = true) → w.debounceTimeout = some (deadline, q) →
      w.now + elapsed ps < deadline →
      (run env ps w).debounceTimeout = some (deadline, q) ∧
      (run env ps w).fired = w.fired ∧
      (run env ps w).now = w.now + elapsed ps ∧
      (run env ps w).ui.query = w.ui.query := by
  induction ps with
  | nil => intro w deadline q _ h _; exact ⟨h, rfl, rfl, rfl⟩
  | cons e ps ih =>
    intro w deadline q hp htimer hlt
    have hps : ∀ e' ∈ ps, e'.isPassive = true := fun e' he' => hp e' (List.mem_cons_of_mem _ he')
    by_cases htime : ∃ ms, e = .elapse ms
    · obtain ⟨ms, rfl⟩ := htime
      have hel : elapsed (Event.elapse ms :: ps) = ms + elapsed ps := rfl
      rw [hel] at hlt ⊢
      have hstep := step_elapse_early env w ms deadline q htimer (by omega)
      have h := ih (step env (.elapse ms) w) deadline q hps (by rw [hstep]; exact htimer)
        (by rw [hstep]; show w.now + ms + elapsed ps < deadline; omega)
      show (run env ps (step env (.elapse ms) w)).debounceTimeout = some (deadline, q) ∧
        (run env ps (step env (.elapse ms) w)).fired = w.fired ∧
        (run env ps (step env (.elapse ms) w)).now = w.now + (ms + elapsed ps) ∧
        (run env ps (step env (.elapse ms) w)).ui.query = w.ui.query
      refine ⟨h.1, ?_, ?_, ?_⟩
      · rw [h.2.1, hstep]
      · rw [h.2.2.1, hstep]
        show w.now + ms + elapsed ps = w.now + (ms + elapsed ps)
        omega
      · rw [h.2.2.2, hstep]
    · have htime' : ∀ ms, e ≠ .elapse ms := fun ms h => htime ⟨ms, h⟩
      have hf := step_passive_frame env e w (hp e (List.mem_cons_self _ _)) htime'
      rw [elapsed_cons_passive e ps htime'] at hlt ⊢
      have h := ih (step env e w) deadline q hps (by rw [hf.1]; exact htimer)
        (by rw [hf.2.2.1]; exact hlt)
      show (run env ps (step env e w)).debounceTimeout = some (deadline, q) ∧
        (run env ps (step env e w)).fired = w.fired ∧
        (run env ps (step env e w)).now = w.now + elapsed ps ∧
        (run env ps (step env e w)).ui.query = w.ui.query
      refine ⟨h.1, ?_, ?_, ?_⟩
      · rw [h.2.1, hf.2.1]
      · rw [h.2.2.1, hf.2.2.1]
      · rw [h.2.2.2, hf.2.2.2]

/-- Once as much time passes as the pending timer needs, passive events run its
callback exactly once, with the query the timer was set for. -/
theorem passive_due (env : Env) (ps : List Event) :
    ∀ (w : World) (deadline : Nat) (q : JSString),
      (∀ e ∈ ps, e.isPassive = true) → w.debounceTimeout = some (deadline, q) →
      w.now < deadline → deadline ≤ w.now + elapsed ps →
      (run env ps w).debounceTimeout = none ∧ (run env ps w).fired = w.fired ++ [q] := by
  induction ps with
  | nil =>
    intro w deadline q _ _ hnow hle
    have hzero : elapsed [] = 0 := rfl
    rw [hzero] at hle
    omega
  | cons e ps ih =>
    intro w deadline q hp htimer hnow hle
    have hps : ∀ e' ∈ ps, e'.isPassive = true := fun e' he' => hp e' (List.mem_cons_of_mem _ he')
    by_cases htime : ∃ ms, e = .elapse ms
    · obtain ⟨ms, rfl⟩ := htime
      have hel : elapsed (Event.elapse ms :: ps) = ms + elapsed ps := rfl
      rw [hel] at hle
      show (run env ps (step env (.elapse ms) w)).debounceTimeout = none ∧
        (run env ps (step env (.elapse ms) w)).fired = w.fired ++ [q]
      by_cases hdue : deadline ≤ w.now + ms
      · have hstep := step_elapse_due env w ms deadline q htimer hdue
        have hfire := fireTimeout_frame env q w
        have h := passive_idle env ps (step env (.elapse ms) w) hps
          (by rw [hstep]; exact hfire.1)
        refine ⟨h.1, ?_⟩
        rw [h.2, hstep]
        exact hfire.2
      · have hstep := step_elapse_early env w ms deadline q htimer (by omega)
        have h := ih (step env (.elapse ms) w) deadline q hps (by rw [hstep]; exact htimer)
          (by rw [hstep]; show w.now + ms < deadline; omega)
          (by rw [hstep]; show deadline ≤ w.now + ms + elapsed ps; omega)
        refine ⟨h.1, ?_⟩
        rw [h.2, hstep]
    · have htime' : ∀ ms, e ≠ .elapse ms := fun ms h => htime ⟨ms, h⟩
      have hf := step_passive_frame env e w (hp e (List.mem_cons_self _ _)) htime'
      rw [elapsed_cons_passive e ps htime'] at hle
      have h := ih (step env e w) deadline q hps (by rw [hf.1]; exact htimer)
        (by rw [hf.2.2.1]; exact hnow) (by rw [hf.2.2.1]; exact hle)
      show (run env ps (step env e w)).debounceTimeout = none ∧
        (run env ps (step env e w)).fired = w.fired ++ [q]
      refine ⟨h.1, ?_⟩
      rw [h.2, hf.2.1]

/-- C2: take query updates `v₁, v₂, ..., vₙ`, each one changing the query, with
less than 300ms between consecutive updates and only events that do not set the
query in between, followed by 300ms without an update.  Then the debounce timer
runs `fetchSuggestions` exactly once over the whole sequence, with the final value
`vₙ`, and no timer is left pending. -/
theorem debounce_fires_once (env : Env) (quiet : List Event)
    (hquiet : (∀ e ∈ quiet, e.isPassive = true) ∧ elapsed quiet = 300)
    (rest : List (List Event × JSString)) :
    ∀ (w : World) (v₁ : JSString),
      List.Chain (fun a b => a ≠ b) w.ui.query (v₁ :: rest.map Prod.snd) →
      (∀ b ∈ rest, (∀ e ∈ b.1, e.isPassive = true) ∧ elapsed b.1 < 300) →
      (run env (Event.change v₁ :: (typing rest ++ quiet)) w).fired =
        w.fired ++ [finalValue v₁ rest] ∧
      (run env (Event.change v₁ :: (typing rest ++ quiet)) w).debounceTimeout = none := by
  induction rest with
  | nil =>
    intro w v₁ hchain _
    have hne : v₁ ≠ w.ui.query := fun h => (List.chain_cons.mp hchain).1 h.symm
    show (run env quiet (step env (.change v₁) w)).fired = w.fired ++ [v₁] ∧
      (run env quiet (step env (.change v₁) w)).debounceTimeout = none
    rw [step_change_of_ne env w v₁ hne]
    have h := passive_due env quiet
      { w with ui := onChange v₁ w.ui, debounceTimeout := some (w.now + 300, v₁) }
      (w.now + 300) v₁ hquiet.1 rfl (by show w.now < w.now + 300; omega)
      (by rw [hquiet.2])
    exact ⟨h.2, h.1⟩
  | cons b rest ih =>
    intro w v₁ hchain hrapid
    obtain ⟨between, v₂⟩ := b
    have hne : v₁ ≠ w.ui.query := fun h => (List.chain_cons.mp hchain).1 h.symm
    have htail : List.Chain (fun a b => a ≠ b) v₁ (v₂ :: rest.map Prod.snd) :=
      (List.chain_cons.mp hchain).2
    have hb : (∀ e ∈ between, e.isPassive = true) ∧ elapsed between < 300 :=
      hrapid (between, v₂) (List.mem_cons_self _ _)
    have hrest : ∀ b ∈ rest, (∀ e ∈ b.1, e.isPassive = true) ∧ elapsed b.1 < 300 :=
      fun b hb => hrapid b (List.mem_cons_of_mem _ hb)
    have hshape : run env (Event.change v₁ :: (typing ((between, v₂) :: rest) ++ quiet)) w =
        run env (Event.change v₂ :: (typing rest ++ quiet))
          (run env between (step env (.change v₁) w)) := by
      show run env ((between ++ (Event.change v₂ :: typing rest)) ++ quiet)
          (step env (.change v₁) w) = _
      rw [List.append_assoc, run_append]
      rfl
    rw [hshape, step_change_of_ne env w v₁ hne]
    have hearly := passive_early env between
      { w with ui := onChange v₁ w.ui, debounceTimeout := some (w.now + 300, v₁) }
      (w.now + 300) v₁ hb.1 rfl (by show w.now + elapsed between < w.now + 300; omega)
    have hih := ih _ v₂ (by rw [hearly.2.2.2]; exact htail) hrest
    rw [hearly.2.1] at hih
    exact hih

theorem debounce_fires_once_witness :
    ((∀ e ∈ [Event.elapse 300], e.isPassive = true) ∧ elapsed [Event.elapse 300] = 300) ∧
    List.Chain (fun a b => a ≠ b) (World.init demoContainer).ui.query
      (js "b" :: [([Event.elapse 100], js "ba"),
        ([Event.focus, Event.elapse 299], js "bat")].map Prod.snd) ∧
    (∀ b ∈ [([Event.elapse 100], js "ba"), ([Event.focus, Event.elapse 299], js "bat")],
      (∀ e ∈ b.1, e.isPassive = true) ∧ elapsed b.1 < 300) ∧
    (run stdEnv
      (Event.change (js "b") ::
        (typing [([Event.elapse 100], js "ba"), ([Event.focus, Event.elapse 299], js "bat")]
          ++ [Event.elapse 300]))
      (World.init demoContainer)).fired = [] ++ [js "bat"] ∧
    (run stdEnv
      (Event.change (js "b") ::
        (typing [([Event.elapse 100], js "ba"), ([Event.focus, Event.elapse 299], js "bat")]
          ++ [Event.elapse 300]))
      (World.init demoContainer)).debounceTimeout = none :=
  ⟨by decide,
    List.Chain.cons (by decide)
      (List.Chain.cons (by decide) (List.Chain.cons (by decide) List.Chain.nil)),
    by decide,
    debounce_fires_once stdEnv [Event.elapse 300] (by decide)
      [([Event.elapse 100], js "ba"), ([Event.focus, Event.elapse 299], js "bat")]
      (World.init demoContainer) (js "b")
      (List.Chain.cons (by decide)
        (List.Chain.cons (by decide) (List.Chain.cons (by decide) List.Chain.nil)))
      (by decide)⟩

/-! ## Submitting the query -/

theorem dropWhile_all_of_ne_nil (p : Nat → Bool) (l : List Nat)
    (h : ∀ x ∈ l.dropWhile p, p x = true) : l.dropWhile p = [] := by
  induction l with
  | nil => rfl
  | cons a l ih =>
    by_cases ha : p a = true
    · rw [List.dropWhile_cons_of_pos ha] at h ⊢
      exact ih h
    · rw [List.dropWhile_cons_of_neg ha] at h
      exact absurd (h a (List.mem_cons_self _ _)) ha

theorem trim_eq_nil_iff (q : JSString) :
    trim q = [] ↔ ∀ u ∈ q, isWhiteSpace u = true := by
  unfold trim
  rw [List.reverse_eq_nil_iff, List.dropWhile_eq_nil_iff]
  constructor
  · intro h
    have hall : ∀ x ∈ q.dropWhile isWhiteSpace, isWhiteSpace x = true :=
      fun x hx => h x (List.mem_reverse.mpr hx)
    exact List.dropWhile_eq_nil_iff.mp (dropWhile_all_of_ne_nil isWhiteSpace q hall)
  · intro h x hx
    have hnil : q.dropWhile isWhiteSpace = [] := List.dropWhile_eq_nil_iff.mpr h
    rw [hnil] at hx
    simp at hx

theorem stdEncode_ok_bounded (n : Nat) :
    ∀ q : JSString, q.length ≤ n → (∀ u ∈ q, ¬ (0xD800 ≤ u ∧ u ≤ 0xDFFF)) →
      ∃ t, stdEncodeURIComponent q = .ok t := by
  induction n with
  | zero =>
    intro q hq _
    have hnil : q = [] := List.length_eq_zero.mp (Nat.le_zero.mp hq)
    subst hnil
    exact ⟨[], rfl⟩
  | succ n ih =>
    intro q hq hns
    match q, hq, hns with
    | [], _, _ => exact ⟨[], rfl⟩
    | [u], _, hns =>
      have hu := hns u (List.mem_singleton_self u)
      unfold stdEncodeURIComponent
      by_cases h₁ : isUnreserved u = true
      · exact ⟨[u], by simp [h₁]⟩
      · exact ⟨pctCodePoint u, by simp [h₁, hu]⟩
    | u :: v :: rest, hq, hns =>
      have hu := hns u (List.mem_cons_self u _)
      have hlen : (v :: rest).length ≤ n := by
        simp only [List.length_cons] at hq ⊢
        omega
      obtain ⟨t, ht⟩ := ih (v :: rest) hlen (fun x hx => hns x (List.mem_cons_of_mem _ hx))
      have hlow : ¬ (0xDC00 ≤ u ∧ u ≤ 0xDFFF) := fun h => hu ⟨by omega, h.2⟩
      have hhigh : ¬ (0xD800 ≤ u ∧ u ≤ 0xDBFF) := fun h => hu ⟨h.1, by omega⟩
      unfold stdEncodeURIComponent
      by_cases h₁ : isUnreserved u = true
      · exact ⟨u :: t, by simp [h₁, ht]⟩
      · exact ⟨pctCodePoint u ++ t, by simp [h₁, hlow, hhigh, ht]⟩

/-- The standard `encodeURIComponent` returns on every string without surrogate
code units. -/
theorem stdEncode_ok_of_no_surrogate (q : JSString)
    (h : ∀ u ∈ q, ¬ (0xD800 ≤ u ∧ u ≤ 0xDFFF)) : ∃ t, stdEncodeURIComponent q = .ok t :=
  stdEncode_ok_bounded q.length q (le_refl _) h

/-- C11 fails on the code: the query consisting of one unpaired surrogate
contains a non-whitespace character, yet on submit `encodeURIComponent` throws
out of `handleSearch`: nothing is navigated to and the panel stays open. -/
theorem submit_lone_surrogate_throws :
    Reachable stdEnv loneSurrogateTyped ∧
    loneSurrogateTyped.ui.query = [0xD800] ∧
    (∃ u ∈ loneSurrogateTyped.ui.query, isWhiteSpace u = false) ∧
    loneSurrogateTyped.ui.showSuggestions = true ∧
    handleSearch stdEnv loneSurrogateTyped.ui = .error uriError ∧
    (step stdEnv .submit loneSurrogateTyped).navigated = [] ∧
    (step stdEnv .submit loneSurrogateTyped).ui.showSuggestions = true :=
  ⟨reachable_run stdEnv _ _ (Reachable.init demoContainer), by decide, by decide, by decide,
    rfl, by decide, by decide⟩

/-- C11 as amended: on submit, when the query contains a non-whitespace
character and `encodeURIComponent(query)` returns, the panel is closed and the
route `/search?q=<encodeURIComponent(query)>`, built from the untrimmed query, is
navigated to, nothing else changing; when the query is empty or all whitespace,
and also when `encodeURIComponent` throws, nothing is navigated to and the state
is unchanged. -/
theorem submit_dismissal (env : Env) (w : World) :
    (∀ encoded, (∃ u ∈ w.ui.query, isWhiteSpace u = false) →
      env.encodeURIComponent w.ui.query = .ok encoded →
      step env .submit w =
        { w with
          ui := { w.ui with showSuggestions := false }
          navigated := w.navigated ++ [js "/search?q=" ++ encoded] }) ∧
    ((∀ u ∈ w.ui.query, isWhiteSpace u = true) → step env .submit w = w) ∧
    (∀ e, env.encodeURIComponent w.ui.query = .error e → step env .submit w = w) := by
  refine ⟨?_, ?_, ?_⟩
  · intro encoded hsome henc
    have htrim : trim w.ui.query ≠ [] := by
      intro h
      obtain ⟨u, hu, hws⟩ := hsome
      have := (trim_eq_nil_iff w.ui.query).mp h u hu
      rw [hws] at this
      cases this
    simp [step, handleSearch, htrim, henc]
  · intro hall
    have htrim : trim w.ui.query = [] := (trim_eq_nil_iff w.ui.query).mpr hall
    simp [step, handleSearch, htrim]
  · intro e henc
    by_cases htrim : trim w.ui.query = []
    · simp [step, handleSearch, htrim]
    · simp [step, handleSearch, htrim, henc]

theorem submit_dismissal_witness :
    (∃ u ∈ batManTyped.ui.query, isWhiteSpace u = false) ∧
    stdEnv.encodeURIComponent batManTyped.ui.query = .ok (js "bat%20man") ∧
    step stdEnv .submit batManTyped =
      { batManTyped with
        ui := { batManTyped.ui with showSuggestions := false }
        navigated := batManTyped.navigated ++ [js "/search?q=" ++ js "bat%20man"] } ∧
    (step stdEnv .submit batManTyped).navigated = [js "/search?q=bat%20man"] ∧
    (step stdEnv .submit batManTyped).ui.showSuggestions = false :=
  ⟨by decide, rfl,
    (submit_dismissal stdEnv batManTyped).1 (js "bat%20man") (by decide) rfl,
    by decide, by decide⟩

/-! ## Pagination controls -/

/-- C12: whatever `totalPages` and `page` are, the pagination controls are not
rendered on the `/trending` path nor when `searchType` is `'person'`; otherwise
they are rendered exactly when `totalPages > 1`. -/
theorem pagination_modes (l : Search.Location) (s : Search.State) :
    (l.pathname = js "/trending" → Search.pagination l s = none) ∧
    (l.searchType = js "person" → Search.pagination l s = none) ∧
    (l.pathname ≠ js "/trending" → l.searchType ≠ js "person" →
      ((Search.pagination l s).isSome = true ↔ s.totalPages > 1)) := by
  refine ⟨?_, ?_, ?_⟩
  · intro h
    simp [Search.pagination, Search.Location.isTrendingPage, h]
  · intro h
    simp [Search.pagination, h]
  · intro hpath htype
    have ht : l.isTrendingPage = false := by
      simp [Search.Location.isTrendingPage, hpath]
    simp [Search.pagination, ht, htype]

theorem pagination_modes_witness :
    Search.pagination ⟨js "/trending", none, none⟩ ⟨[batman], false, none, 1, 5⟩ = none ∧
    Search.pagination ⟨js "/search", some (js "a"), some (js "person")⟩
      ⟨[batman], false, none, 1, 5⟩ = none ∧
    ((Search.pagination ⟨js "/search", some (js "a"), none⟩
        ⟨[batman], false, none, 1, 5⟩).isSome = true ↔ (5 : Int) > 1) :=
  ⟨(pagination_modes ⟨js "/trending", none, none⟩ ⟨[batman], false, none, 1, 5⟩).1 rfl,
    (pagination_modes ⟨js "/search", some (js "a"), some (js "person")⟩
      ⟨[batman], false, none, 1, 5⟩).2.1 (by decide),
    (pagination_modes ⟨js "/search", some (js "a"), none⟩
      ⟨[batman], false, none, 1, 5⟩).2.2 (by decide) (by decide)⟩

/-! ## Responses that are not ok -/

/-- C13: for each of the six API functions, once its `fetch` has resolved with
a response, the call rejects with `Error(<the fixed message of the call site>)`
when the response is not ok, whatever the arguments and the body, and settles
as `response.json()` does, that is with the parsed body, when it is ok.  For
`searchMovies` and `getAutocompleteSuggestions` (query of length at least 2)
the `fetch` is issued when `encodeURIComponent` returns. -/
theorem api_error_policy (env : Env) :
    (∀ (query encoded : JSString) (page : Option Int) (response : Response Body),
      env.encodeURIComponent query = .ok encoded →
      (searchMovies env query page).complete (.ok response) =
        if response.ok then response.json
        else .error ⟨js "Error", js "Failed to search movies"⟩) ∧
    (∀ (query encoded : JSString) (response : Response Body),
      2 ≤ query.length → env.encodeURIComponent query = .ok encoded →
      (getAutocompleteSuggestions env (some query)).complete (.ok response) =
        if response.ok then response.json
        else .error ⟨js "Error", js "Failed to get suggestions"⟩) ∧
    (∀ (movieId : JSString) (response : Response (Option MovieDetail)),
      (getMovieDetails env movieId).complete (.ok response) =
        if response.ok then response.json
        else .error ⟨js "Error", js "Failed to fetch movie details"⟩) ∧
    (∀ (movieId : JSString) (limit : Option Int) (response : Response Body),
      (getRecommendations env movieId limit).complete (.ok response) =
        if response.ok then response.json
        else .error ⟨js "Error", js "Failed to get recommendations"⟩) ∧
    (∀ (movieIds : MovieIds) (limit : Option Int) (response : Response Body),
      (getHybridRecommendations env movieIds limit).complete (.ok response) =
        if response.ok then response.json
        else .error ⟨js "Error", js "Failed to get hybrid recommendations"⟩) ∧
    (∀ (timeWindow : Option JSString) (response : Response Body),
      (getTrendingMovies env timeWindow).complete (.ok response) =
        if response.ok then response.json
        else .error ⟨js "Error", js "Failed to get trending movies"⟩) := by
  refine ⟨?_, ?_, ?_, ?_, ?_, ?_⟩
  · intro query encoded page response henc
    cases hok : response.ok <;> simp [searchMovies, henc, ApiCall.complete, hok]
  · intro query encoded response hlen henc
    have hne : query ≠ [] := by
      intro h
      rw [h] at hlen
      simp at hlen
    have hlt : ¬ (query.length < 2) := by omega
    cases hok : response.ok <;>
      simp [getAutocompleteSuggestions, hne, hlt, henc, ApiCall.complete, hok]
  · intro movieId response
    cases hok : response.ok <;> simp [getMovieDetails, ApiCall.complete, hok]
  · intro movieId limit response
    cases hok : response.ok <;> simp [getRecommendations, ApiCall.complete, hok]
  · intro movieIds limit response
    cases hok : response.ok <;> simp [getHybridRecommendations, ApiCall.complete, hok]
  · intro timeWindow response
    cases hok : response.ok <;> simp [getTrendingMovies, ApiCall.complete, hok]

theorem api_error_policy_witness :
    stdEnv.encodeURIComponent (js "bat man") = .ok (js "bat%20man") ∧
    (searchMovies stdEnv (js "bat man") (some 2)).complete
        (.ok ⟨false, .ok (some ⟨some [batman], some 5⟩)⟩) =
      .error ⟨js "Error", js "Failed to search movies"⟩ ∧
    (searchMovies stdEnv (js "bat man") (some 2)).complete
        (.ok ⟨true, .ok (some ⟨some [batman], some 5⟩)⟩) =
      .ok (some ⟨some [batman], some 5⟩) ∧
    (getAutocompleteSuggestions stdEnv (some (js "bat man"))).complete
        (.ok ⟨false, .ok none⟩) =
      .error ⟨js "Error", js "Failed to get suggestions"⟩ ∧
    (getAutocompleteSuggestions stdEnv (some (js "bat man"))).complete
        (.ok ⟨true, .ok (some ⟨some [batman], none⟩)⟩) =
      .ok (some ⟨some [batman], none⟩) :=
  ⟨rfl,
    (api_error_policy stdEnv).1 (js "bat man") (js "bat%20man") (some 2)
      ⟨false, .ok (some ⟨some [batman], some 5⟩)⟩ rfl,
    (api_error_policy stdEnv).1 (js "bat man") (js "bat%20man") (some 2)
      ⟨true, .ok (some ⟨some [batman], some 5⟩)⟩ rfl,
    (api_error_policy stdEnv).2.1 (js "bat man") (js "bat%20man")
      ⟨false, .ok none⟩ (by decide) rfl,
    (api_error_policy stdEnv).2.1 (js "bat man") (js "bat%20man")
      ⟨true, .ok (some ⟨some [batman], none⟩)⟩ (by decide) rfl⟩

/-! ## Failure isolation on the movie page -/

/-- C14: a rejected recommendations fetch sets `recError` to `'Failed to load
recommendations'` and `isLoadingRecs` to false and nothing else; and after both
functions of one effect run have started, when the detail fetch fulfils with a
movie record `data`, the detail state is `movie = data`, `error = null`,
`isLoading = false`, however the recommendations fetch settles and whichever of
the two settles first. -/
theorem recommendations_failure_isolated (env : Env) (id : JSString) :
    (∀ (e : JsError) (s : MoviePage.State),
      MoviePage.fetchRecommendations.resume (.error e) s =
        { s with recError := some (js "Failed to load recommendations")
                 isLoadingRecs := false }) ∧
    (∀ (s : MoviePage.State) (data : MovieDetail) (recs : Settled Body),
      ((MoviePage.fetchMovieDetails.resume (.ok (some data))
          (MoviePage.fetchRecommendations.resume recs
            (MoviePage.fetchRecommendations env id
              (MoviePage.fetchMovieDetails env id s).1).1)).1.movie = some data ∧
        (MoviePage.fetchMovieDetails.resume (.ok (some data))
          (MoviePage.fetchRecommendations.resume recs
            (MoviePage.fetchRecommendations env id
              (MoviePage.fetchMovieDetails env id s).1).1)).1.error = none ∧
        (MoviePage.fetchMovieDetails.resume (.ok (some data))
          (MoviePage.fetchRecommendations.resume recs
            (MoviePage.fetchRecommendations env id
              (MoviePage.fetchMovieDetails env id s).1).1)).1.isLoading = false) ∧
      ((MoviePage.fetchRecommendations.resume recs
          (MoviePage.fetchMovieDetails.resume (.ok (some data))
            (MoviePage.fetchRecommendations env id
              (MoviePage.fetchMovieDetails env id s).1).1).1).movie = some data ∧
        (MoviePage.fetchRecommendations.resume recs
          (MoviePage.fetchMovieDetails.resume (.ok (some data))
            (MoviePage.fetchRecommendations env id
              (MoviePage.fetchMovieDetails env id s).1).1).1).error = none ∧
        (MoviePage.fetchRecommendations.resume recs
          (MoviePage.fetchMovieDetails.resume (.ok (some data))
            (MoviePage.fetchRecommendations env id
              (MoviePage.fetchMovieDetails env id s).1).1).1).isLoading = false)) := by
  constructor
  · intro e s
    rfl
  · intro s data recs
    have hrecs : ∀ t : MoviePage.State,
        (MoviePage.fetchRecommendations.resume recs t).movie = t.movie ∧
        (MoviePage.fetchRecommendations.resume recs t).error = t.error ∧
        (MoviePage.fetchRecommendations.resume recs t).isLoading = t.isLoading := by
      intro t
      unfold MoviePage.fetchRecommendations.resume
      split <;> exact ⟨rfl, rfl, rfl⟩
    refine ⟨⟨rfl, ?_, rfl⟩, ?_⟩
    · show (MoviePage.fetchRecommendations.resume recs _).error = none
      rw [(hrecs _).2.1]
      rfl
    · rw [(hrecs _).1, (hrecs _).2.1, (hrecs _).2.2]
      exact ⟨rfl, rfl, rfl⟩

/-! ## Failure of the search fetch -/

/-- C15: when the call awaited by `fetchMovies` rejects, the resulting state has
`isLoading = false` and `error` set to the non-empty message of the route
(`'Failed to load trending movies'` on the trending route, `'Failed to search
movies'` otherwise), and `MovieGrid` rendered from that state shows this message,
not the spinner and not the movie list. -/
theorem search_failure_reported (isTrendingPage : Bool) (e : JsError) (s : Search.State) :
    (Search.fetchMovies.resume isTrendingPage (.error e) s).isLoading = false ∧
    (Search.fetchMovies.resume isTrendingPage (.error e) s).error =
      some (if isTrendingPage then js "Failed to load trending movies"
        else js "Failed to search movies") ∧
    (if isTrendingPage then js "Failed to load trending movies"
      else js "Failed to search movies") ≠ [] ∧
    (Search.grid (Search.fetchMovies.resume isTrendingPage (.error e) s)).2 =
      .errorMessage (if isTrendingPage then js "Failed to load trending movies"
        else js "Failed to search movies") := by
  cases isTrendingPage
  · exact ⟨rfl, rfl, by decide, rfl⟩
  · exact ⟨rfl, rfl, by decide, rfl⟩

/-! ## The suggestion panel -/

/-- C16: the panel is rendered exactly when `showSuggestions` is true and the
query has at least 2 code units; when rendered it shows the loading line if
`isLoading`, otherwise one row per suggestion, in order, if there is any,
otherwise the no-results line.  Below 2 code units nothing is rendered whatever
the suggestion set holds, and two states that agree on `showSuggestions`, the
query length, `isLoading` and `suggestions` render the same panel. -/
theorem suggestion_panel_rendering (s : ACState) :
    (suggestionPanel s ≠ .hidden ↔ s.showSuggestions = true ∧ 2 ≤ s.query.length) ∧
    (s.showSuggestions = true → 2 ≤ s.query.length →
      (s.isLoading = true → suggestionPanel s = .loading) ∧
      (s.isLoading = false → s.suggestions ≠ [] →
        suggestionPanel s = .rows (s.suggestions.map suggestionRow)) ∧
      (s.isLoading = false → s.suggestions = [] → suggestionPanel s = .noResults)) ∧
    (s.query.length < 2 → suggestionPanel s = .hidden) ∧
    (∀ s₂ : ACState, s₂.showSuggestions = s.showSuggestions →
      s₂.query.length = s.query.length → s₂.isLoading = s.isLoading →
      s₂.suggestions = s.suggestions → suggestionPanel s₂ = suggestionPanel s) := by
  refine ⟨?_, ?_, ?_, ?_⟩
  · unfold suggestionPanel
    constructor
    · intro h
      by_contra hcon
      have hge : ¬ (s.showSuggestions = true ∧ s.query.length ≥ 2) := hcon
      simp only [hge, if_false] at h
      exact h rfl
    · intro h
      have hge : s.showSuggestions = true ∧ s.query.length ≥ 2 := h
      simp only [hge, and_self, if_true]
      split
      · intro hc; cases hc
      · split
        · intro hc; cases hc
        · intro hc; cases hc
  · intro hshow hlen
    have hge : s.showSuggestions = true ∧ s.query.length ≥ 2 := ⟨hshow, hlen⟩
    refine ⟨?_, ?_, ?_⟩
    · intro hload
      simp [suggestionPanel, hshow, hlen, hload]
    · intro hload hne
      have hpos : s.suggestions.length > 0 := List.length_pos.mpr hne
      simp [suggestionPanel, hshow, hlen, hload, hpos]
    · intro hload hnil
      simp [suggestionPanel, hshow, hlen, hload, hnil]
  · intro hlt
    have hge : ¬ (s.query.length ≥ 2) := by omega
    simp [suggestionPanel, hge]
  · intro s₂ h₁ h₂ h₃ h₄
    unfold suggestionPanel
    rw [h₁, h₂, h₃, h₄]

theorem suggestion_panel_rendering_witness :
    (⟨js "bat", [fightClub, batman], false, true⟩ : ACState).showSuggestions = true ∧
    2 ≤ (⟨js "bat", [fightClub, batman], false, true⟩ : ACState).query.length ∧
    suggestionPanel ⟨js "bat", [fightClub, batman], false, true⟩ =
      .rows [⟨550, none, js "Fight Club", some 1999⟩, ⟨268, none, js "Batman", some 1989⟩] ∧
    suggestionPanel ⟨js "bat", [fightClub, batman], true, true⟩ = .loading ∧
    suggestionPanel ⟨js "bat", [], false, true⟩ = .noResults ∧
    suggestionPanel ⟨js "b", [fightClub, batman], false, true⟩ = .hidden :=
  ⟨rfl, by decide,
    ((suggestion_panel_rendering ⟨js "bat", [fightClub, batman], false, true⟩).2.1 rfl
      (by decide)).2.1 rfl (by decide),
    ((suggestion_panel_rendering ⟨js "bat", [fightClub, batman], true, true⟩).2.1 rfl
      (by decide)).1 rfl,
    ((suggestion_panel_rendering ⟨js "bat", [], false, true⟩).2.1 rfl
      (by decide)).2.2 rfl rfl,
    (suggestion_panel_rendering ⟨js "b", [fightClub, batman], false, true⟩).2.2.1
      (by decide)⟩

/-! ## The search type and the request -/

/-- C17: the request issued by `fetchMovies` does not depend on the search
type: for every query, page and pair of `searchType` values the awaited call and
the resulting state are the same; `searchMovies` builds the URL
`<base>/search?query=<encodeURIComponent(query)>&page=<page>`. -/
theorem search_type_not_sent (env : Env) (query : JSString) (page : Int) :
    (∀ (isTrendingPage : Bool) (t₁ t₂ : JSString) (s : Search.State),
      (Search.fetchMovies env isTrendingPage query page t₁ s).1 =
        (Search.fetchMovies env isTrendingPage query page t₂ s).1 ∧
      (Search.fetchMovies env isTrendingPage query page t₁ s).2.map Prod.snd =
        (Search.fetchMovies env isTrendingPage query page t₂ s).2.map Prod.snd) ∧
    (∀ (t : JSString) (s : Search.State), query ≠ [] →
      (Search.fetchMovies env false query page t s).2 =
        some (.searchMovies query page t, searchMovies env query (some page))) ∧
    (∀ encoded : JSString, env.encodeURIComponent query = .ok encoded →
      searchMovies env query (some page) =
        .fetch
          (env.API_BASE_URL ++ js "/search?query=" ++ encoded ++ js "&page=" ++
            numToString page)
          (js "Failed to search movies")) := by
  refine ⟨?_, ?_, ?_⟩
  · intro isTrendingPage t₁ t₂ s
    unfold Search.fetchMovies
    cases isTrendingPage
    · by_cases hq : query = []
      · simp [hq]
      · simp [hq]
    · simp
  · intro t s hq
    simp [Search.fetchMovies, hq]
  · intro encoded henc
    simp [searchMovies, henc]

theorem search_type_not_sent_witness :
    js "bat man" ≠ [] ∧
    stdEnv.encodeURIComponent (js "bat man") = .ok (js "bat%20man") ∧
    (Search.fetchMovies stdEnv false (js "bat man") 2 (js "person") Search.State.initial).2 =
      some (.searchMovies (js "bat man") 2 (js "person"),
        searchMovies stdEnv (js "bat man") (some 2)) ∧
    searchMovies stdEnv (js "bat man") (some 2) =
      .fetch (js "http://localhost:5002/api/search?query=bat%20man&page=2")
        (js "Failed to search movies") :=
  ⟨by decide, rfl,
    (search_type_not_sent stdEnv (js "bat man") 2).2.1 (js "person") Search.State.initial
      (by decide),
    (search_type_not_sent stdEnv (js "bat man") 2).2.2 (js "bat%20man") rfl⟩

end MovieUI
